import Mathlib

/-!
Verification development for the `emu-gb-rust` Game Boy (DMG) emulator core.

The Rust sources (`src/emu/{cart,bus,ppu,cpu,mod}.rs`) are embedded shallowly:

* machine bytes and words are `Nat`, with `% 256` / `% 65536` inserted exactly
  where the Rust code wraps (`wrapping_add`, `as u8`, `as u16`, shifts on `u8`);
* byte arrays (`wram`, `vram`, `oam`, `hram`, the ROM and the framebuffer) are
  functions `Nat → Nat`, updated pointwise;
* `while` loops whose guard decreases by a fixed amount per iteration
  (the PPU scanline loop subtracts 456, the timer loop subtracts a fixed
  positive period) are embedded as structural recursion on the exact number of
  iterations the guard admits, keeping every definition computable;
* the `panic!` in `Cpu::step` is a distinguished `StepResult.panicked` outcome.
-/

namespace EmuGb

/-- CPU flag register, cf. `struct Flags` in `cpu.rs`: stored as four booleans,
packed into the high nibble of F on demand. -/
structure Flags where
  z : Bool
  n : Bool
  h : Bool
  c : Bool
  deriving Repr, DecidableEq

/-- `Flags::to_byte`: pack the four flags into bits 7..4. -/
def Flags.to_byte (f : Flags) : Nat :=
  (if f.z then 0x80 else 0) ||| (if f.n then 0x40 else 0) |||
  (if f.h then 0x20 else 0) ||| (if f.c then 0x10 else 0)

/-- `Flags::from_byte`: bits 7..4 of `v` become Z, N, H, C. -/
def Flags.from_byte (v : Nat) : Flags :=
  { z := v &&& 0x80 != 0
    n := v &&& 0x40 != 0
    h := v &&& 0x20 != 0
    c := v &&& 0x10 != 0 }

/-- CPU state, cf. `struct Cpu` in `cpu.rs`. -/
structure Cpu where
  a : Nat
  f : Flags
  b : Nat
  c : Nat
  d : Nat
  e : Nat
  h : Nat
  l : Nat
  sp : Nat
  pc : Nat
  ime : Bool
  halted : Bool

/-- `Cpu::new`: post-boot-ROM register state. -/
def Cpu.new : Cpu :=
  { a := 0x01
    f := { z := true, n := false, h := true, c := true }
    b := 0x00, c := 0x13
    d := 0x00, e := 0xD8
    h := 0x01, l := 0x4D
    sp := 0xFFFE
    pc := 0x0100
    ime := false
    halted := false }

/-- Joypad buttons, cf. `struct JoypadState` in `bus.rs`. -/
structure JoypadState where
  up : Bool
  down : Bool
  left : Bool
  right : Bool
  a : Bool
  b : Bool
  start : Bool
  select : Bool

/-- The all-released joypad (`JoypadState::default`). -/
def JoypadState.default : JoypadState :=
  { up := false, down := false, left := false, right := false,
    a := false, b := false, start := false, select := false }

/-- Cartridge: an immutable ROM byte image with its length, cf. `cart.rs`. -/
structure Cartridge where
  rom : Nat → Nat
  romLen : Nat

/-- `Cartridge::read`: in-bounds bytes, `0xFF` past the end. -/
def Cartridge.read (c : Cartridge) (addr : Nat) : Nat :=
  if addr < c.romLen then c.rom addr else 0xFF

/-- PPU state, cf. `struct Ppu` in `ppu.rs`.  `fb` is the RGBA framebuffer
(160*144*4 bytes) as a function from byte index to byte. -/
structure Ppu where
  fb : Nat → Nat
  lcdc : Nat
  stat : Nat
  scy : Nat
  scx : Nat
  ly : Nat
  lyc : Nat
  bgp : Nat
  wy : Nat
  wx : Nat
  cycle_acc : Nat
  mode : Nat

/-- `Ppu::new`. -/
def Ppu.new : Ppu :=
  { fb := fun _ => 0
    lcdc := 0x91
    stat := 0x85
    scy := 0
    scx := 0
    ly := 0
    lyc := 0
    bgp := 0xFC
    wy := 0
    wx := 0
    cycle_acc := 0
    mode := 1 }

/-- `Ppu::map_palette`. -/
def Ppu.map_palette (palette color_id : Nat) : Nat :=
  let s := (palette >>> (color_id * 2)) &&& 0x03
  if s == 0 then 0xFF else if s == 1 then 0xAA else if s == 2 then 0x55 else 0x00

/-- BG tile-map base address selected by LCDC bit 3 (`render_background`). -/
def bgTileMapBase (lcdc : Nat) : Nat :=
  if lcdc &&& 0x08 != 0 then 0x9C00 else 0x9800

/-- Window tile-map base address selected by LCDC bit 6 (`render_background`). -/
def winTileMapBase (lcdc : Nat) : Nat :=
  if lcdc &&& 0x40 != 0 then 0x9C00 else 0x9800

/-- VRAM index of the BG tile-map entry consulted for screen pixel `(x, y)`:
`bg_tile_map_base - 0x8000 + tile_y * 32 + tile_x` with
`sx = (x + scx) mod 256`, `sy = (y + scy) mod 256`. -/
def bgMapIdx (lcdc scx scy x y : Nat) : Nat :=
  bgTileMapBase lcdc - 0x8000 + ((y + scy) % 256 / 8) * 32 + ((x + scx) % 256 / 8)

/-- VRAM index of the window tile-map entry for screen pixel `(x, y)` given the
window origin `(win_x, win_y)` (only consulted when `win_y ≤ y` and
`win_x ≤ x`). -/
def winMapIdx (lcdc win_x win_y x y : Nat) : Nat :=
  winTileMapBase lcdc - 0x8000 + ((y - win_y) / 8) * 32 + ((x - win_x) / 8)

/-- Address of the first byte of tile `tile_num`: unsigned addressing
`0x8000 + tile_num * 16` when LCDC bit 4 is set, else signed addressing
`0x9000 + (tile_num as i8) * 16` (the Rust code computes the signed base in
`i32` and casts to `u16`, hence the `emod 65536`). -/
def tileDataAddr (use_signed : Bool) (tile_num : Nat) : Nat :=
  if use_signed then
    (((0x9000 : Int) +
      (if tile_num < 0x80 then (tile_num : Int) else (tile_num : Int) - 0x100) * 16) % 65536).toNat
  else
    0x8000 + tile_num * 16

/-- VRAM index of byte `k` (`k ∈ {0, 1}`) of line `line` of tile `tile_num`:
`tile_addr + line * 2 + k - 0x8000`. -/
def tileByteIdx (use_signed : Bool) (tile_num line k : Nat) : Nat :=
  tileDataAddr use_signed tile_num + line * 2 + k - 0x8000

/-- Shade of background pixel `(x, y)`: the body of the BG pixel loop in
`Ppu::render_background`. -/
def Ppu.bgPixel (p : Ppu) (vram : Nat → Nat) (x y : Nat) : Nat :=
  let sy := (y + p.scy) % 256
  let sx := (x + p.scx) % 256
  let use_signed := p.lcdc &&& 0x10 == 0
  let tile_num := vram (bgMapIdx p.lcdc p.scx p.scy x y)
  let line := sy % 8
  let byte0 := vram (tileByteIdx use_signed tile_num line 0)
  let byte1 := vram (tileByteIdx use_signed tile_num line 1)
  let bit := 7 - sx % 8
  let color_id := (((byte1 >>> bit) &&& 1) <<< 1) ||| ((byte0 >>> bit) &&& 1)
  Ppu.map_palette p.bgp color_id

/-- Shade of window pixel `(x, y)` (body of the window overlay loop). -/
def Ppu.winPixel (p : Ppu) (vram : Nat → Nat) (win_x win_y x y : Nat) : Nat :=
  let wy := y - win_y
  let wx := x - win_x
  let use_signed := p.lcdc &&& 0x10 == 0
  let tile_num := vram (winMapIdx p.lcdc win_x win_y x y)
  let line := wy % 8
  let byte0 := vram (tileByteIdx use_signed tile_num line 0)
  let byte1 := vram (tileByteIdx use_signed tile_num line 1)
  let bit := 7 - wx % 8
  let color_id := (((byte1 >>> bit) &&& 1) <<< 1) ||| ((byte0 >>> bit) &&& 1)
  Ppu.map_palette p.bgp color_id

/-- Store one rendered pixel: shade into bytes `idx`, `idx+1`, `idx+2` and
`0xFF` into `idx+3` of the framebuffer. -/
def fbWrite (fb : Nat → Nat) (idx shade : Nat) : Nat → Nat :=
  fun i =>
    if i == idx then shade
    else if i == idx + 1 then shade
    else if i == idx + 2 then shade
    else if i == idx + 3 then 0xFF
    else fb i

/-- The BG pass of `Ppu::render_background`: paint every screen pixel. -/
def Ppu.renderBgFb (p : Ppu) (vram : Nat → Nat) (fb : Nat → Nat) : Nat → Nat :=
  (List.range 144).foldl
    (fun fb y =>
      (List.range 160).foldl
        (fun fb x => fbWrite fb ((y * 160 + x) * 4) (p.bgPixel vram x y)) fb)
    fb

/-- The window overlay pass of `Ppu::render_background` (LCDC bit 5 gates it;
rows above `wy` and columns left of `wx - 7` are skipped). -/
def Ppu.renderWinFb (p : Ppu) (vram : Nat → Nat) (fb : Nat → Nat) : Nat → Nat :=
  if p.lcdc &&& 0x20 != 0 then
    let win_x := (p.wx + 256 - 7) % 256
    let win_y := p.wy
    (List.range 144).foldl
      (fun fb y =>
        if y < win_y then fb
        else
          (List.range 160).foldl
            (fun fb x =>
              if x < win_x then fb
              else fbWrite fb ((y * 160 + x) * 4) (p.winPixel vram win_x win_y x y)) fb)
      fb
  else fb

/-- `Ppu::render_background`: repaint the framebuffer and enter HBlank. -/
def Ppu.render_background (p : Ppu) (vram : Nat → Nat) : Ppu :=
  if p.lcdc &&& 0x80 == 0 then
    { p with fb := fun _ => 0xFF }
  else
    let fb := p.renderBgFb vram p.fb
    let fb := p.renderWinFb vram fb
    { p with fb := fb, mode := 0 }

/-- `Ppu::update_stat`: refresh STAT bit 2 (LY==LYC) and bits 0-1 (mode),
compute the level-sensitive STAT interrupt condition, and finally OR bit 0
into STAT when the `vblank` argument is set. -/
def Ppu.update_stat (p : Ppu) (vblank : Bool) : Ppu × Bool :=
  let lyc_match := p.ly == p.lyc
  let stat := if lyc_match then p.stat ||| 0x04 else p.stat &&& 0xFB
  let stat := (stat &&& 0xFC) ||| (p.mode &&& 0x03)
  let irq :=
    (lyc_match && (stat &&& 0x40 != 0)) ||
    (p.mode == 2 && (stat &&& 0x20 != 0)) ||
    (p.mode == 1 && (stat &&& 0x10 != 0)) ||
    (p.mode == 0 && (stat &&& 0x08 != 0))
  let stat := if vblank then stat ||| 0x01 else stat
  ({ p with stat := stat }, irq)

/-- The scanline `while cycle_acc >= 456` loop of `Ppu::step`, unrolled over
its exact iteration count (each pass subtracts 456 from `cycle_acc`, so the
guard admits precisely `cycle_acc / 456` passes).  Each pass increments LY
(wrapping as `u8`), flags VBlank on reaching 144, and at 154 wraps LY to 0 and
renders the frame. -/
def Ppu.scanLoop (vram : Nat → Nat) : Nat → Ppu → Bool → Ppu × Bool
  | 0, p, vblank => (p, vblank)
  | n + 1, p, vblank =>
    let p := { p with cycle_acc := p.cycle_acc - 456, ly := (p.ly + 1) % 256 }
    if p.ly == 144 then Ppu.scanLoop vram n p true
    else if 154 ≤ p.ly then Ppu.scanLoop vram n (Ppu.render_background { p with ly := 0 } vram) vblank
    else Ppu.scanLoop vram n p vblank

/-- `Ppu::step`: returns the stepped PPU together with the `(vblank, stat_irq)`
pair handed back to the bus. -/
def Ppu.step (p : Ppu) (cycles : Nat) (vram : Nat → Nat) : Ppu × Bool × Bool :=
  if p.lcdc &&& 0x80 == 0 then
    let p := { p with ly := 0, fb := fun _ => 0xFF, mode := 0 }
    let p := (p.update_stat false).1
    (p, false, false)
  else
    let p := { p with cycle_acc := p.cycle_acc + cycles }
    let r := Ppu.scanLoop vram (p.cycle_acc / 456) p false
    let p := r.1
    let vblank := r.2
    let mode :=
      if 144 ≤ p.ly then 1
      else if p.cycle_acc < 80 then 2
      else if p.cycle_acc < 252 then 3
      else 0
    let mode_changed := mode != p.mode
    let p := { p with mode := mode }
    let r2 := p.update_stat (vblank || mode_changed)
    (r2.1, vblank, r2.2)

/-- Bus state, cf. `struct Bus` in `bus.rs`. -/
structure Bus where
  cart : Cartridge
  wram : Nat → Nat
  hram : Nat → Nat
  vram : Nat → Nat
  oam : Nat → Nat
  ppu : Ppu
  joypad : JoypadState
  joyp_select : Nat
  ie : Nat
  iflag : Nat
  div : Nat
  tima : Nat
  tma : Nat
  tac : Nat
  timer_counter : Nat

/-- `Bus::new`. -/
def Bus.new (cart : Cartridge) : Bus :=
  { cart := cart
    wram := fun _ => 0
    hram := fun _ => 0
    vram := fun _ => 0
    oam := fun _ => 0
    ppu := Ppu.new
    joypad := JoypadState.default
    joyp_select := 0x00
    ie := 0
    iflag := 0
    div := 0
    tima := 0
    tma := 0
    tac := 0
    timer_counter := 0 }

/-- `Bus::read_joyp`: active-low joypad byte for the selected line(s). -/
def Bus.read_joyp (b : Bus) : Nat :=
  let res := 0xCF ||| (b.joyp_select &&& 0x30)
  let sel_dpad := b.joyp_select &&& 0x10 == 0
  let sel_btn := b.joyp_select &&& 0x20 == 0
  let res := if sel_dpad && b.joypad.right then res &&& 0xFE else res
  let res := if sel_dpad && b.joypad.left then res &&& 0xFD else res
  let res := if sel_dpad && b.joypad.up then res &&& 0xFB else res
  let res := if sel_dpad && b.joypad.down then res &&& 0xF7 else res
  let res := if sel_btn && b.joypad.a then res &&& 0xFE else res
  let res := if sel_btn && b.joypad.b then res &&& 0xFD else res
  let res := if sel_btn && b.joypad.select then res &&& 0xFB else res
  let res := if sel_btn && b.joypad.start then res &&& 0xF7 else res
  res

/-- `Bus::read8`: the central memory decode (unmapped addresses read 0xFF). -/
def Bus.read8 (b : Bus) (addr : Nat) : Nat :=
  if addr ≤ 0x7FFF then b.cart.read addr
  else if 0x8000 ≤ addr ∧ addr ≤ 0x9FFF then b.vram (addr - 0x8000)
  else if 0xC000 ≤ addr ∧ addr ≤ 0xDFFF then b.wram (addr - 0xC000)
  else if 0xE000 ≤ addr ∧ addr ≤ 0xFDFF then b.wram (addr - 0xE000)
  else if 0xFE00 ≤ addr ∧ addr ≤ 0xFE9F then b.oam (addr - 0xFE00)
  else if addr = 0xFF00 then b.read_joyp
  else if addr = 0xFF40 then b.ppu.lcdc
  else if addr = 0xFF41 then b.ppu.stat
  else if addr = 0xFF42 then b.ppu.scy
  else if addr = 0xFF43 then b.ppu.scx
  else if addr = 0xFF44 then b.ppu.ly
  else if addr = 0xFF45 then b.ppu.lyc
  else if addr = 0xFF47 then b.ppu.bgp
  else if addr = 0xFF4A then b.ppu.wy
  else if addr = 0xFF4B then b.ppu.wx
  else if addr = 0xFF04 then b.div >>> 8
  else if addr = 0xFF05 then b.tima
  else if addr = 0xFF06 then b.tma
  else if addr = 0xFF07 then b.tac ||| 0xF8
  else if 0xFF80 ≤ addr ∧ addr ≤ 0xFFFE then b.hram (addr - 0xFF80)
  else if addr = 0xFF0F then b.iflag
  else if addr = 0xFFFF then b.ie
  else 0xFF

/-- OAM DMA (write to 0xFF46): copy 160 bytes from `value << 8` into OAM,
reading through the bus exactly as the Rust loop does (so a partially updated
OAM is visible to later reads of the same transfer). -/
def Bus.dma (b : Bus) (v : Nat) : Bus :=
  let base := (v % 256) <<< 8
  (List.range 0xA0).foldl
    (fun b i =>
      let data := b.read8 (base + i)
      { b with oam := fun j => if j == i then data else b.oam j })
    b

/-- `Bus::write8`. -/
def Bus.write8 (b : Bus) (addr v : Nat) : Bus :=
  if 0x8000 ≤ addr ∧ addr ≤ 0x9FFF then
    { b with vram := fun i => if i == addr - 0x8000 then v else b.vram i }
  else if 0xC000 ≤ addr ∧ addr ≤ 0xDFFF then
    { b with wram := fun i => if i == addr - 0xC000 then v else b.wram i }
  else if 0xE000 ≤ addr ∧ addr ≤ 0xFDFF then
    { b with wram := fun i => if i == addr - 0xE000 then v else b.wram i }
  else if 0xFE00 ≤ addr ∧ addr ≤ 0xFE9F then
    { b with oam := fun i => if i == addr - 0xFE00 then v else b.oam i }
  else if addr = 0xFF00 then { b with joyp_select := v &&& 0x30 }
  else if addr = 0xFF40 then { b with ppu := { b.ppu with lcdc := v } }
  else if addr = 0xFF41 then
    { b with ppu := { b.ppu with stat := (b.ppu.stat &&& 0x07) ||| (v &&& 0x78) } }
  else if addr = 0xFF42 then { b with ppu := { b.ppu with scy := v } }
  else if addr = 0xFF43 then { b with ppu := { b.ppu with scx := v } }
  else if addr = 0xFF44 then { b with ppu := { b.ppu with ly := 0 } }
  else if addr = 0xFF45 then { b with ppu := { b.ppu with lyc := v } }
  else if addr = 0xFF47 then { b with ppu := { b.ppu with bgp := v } }
  else if addr = 0xFF4A then { b with ppu := { b.ppu with wy := v } }
  else if addr = 0xFF4B then { b with ppu := { b.ppu with wx := v } }
  else if addr = 0xFF04 then { b with div := 0 }
  else if addr = 0xFF05 then { b with tima := v }
  else if addr = 0xFF06 then { b with tma := v }
  else if addr = 0xFF07 then { b with tac := v &&& 0x07 }
  else if 0xFF80 ≤ addr ∧ addr ≤ 0xFFFE then
    { b with hram := fun i => if i == addr - 0xFF80 then v else b.hram i }
  else if addr = 0xFF0F then { b with iflag := v }
  else if addr = 0xFFFF then { b with ie := v }
  else if addr = 0xFF46 then b.dma v
  else b

/-- `Bus::timer_freq_divider`: TIMA period in cycles, from TAC bits 1-0. -/
def Bus.timer_freq_divider (b : Bus) : Nat :=
  if b.tac &&& 0x03 == 0 then 1024
  else if b.tac &&& 0x03 == 1 then 16
  else if b.tac &&& 0x03 == 2 then 64
  else 256

/-- One TIMA increment (`tima.overflowing_add(1)` on a `u8`): on overflow the
timer reloads from TMA and bit 2 of `iflag` is raised. -/
def timaStep (tima tma iflag : Nat) : Nat × Nat :=
  if 256 ≤ tima + 1 then (tma, iflag ||| 0x04) else (tima + 1, iflag)

/-- The `while timer_counter >= period` loop of `Bus::tick_timer`, unrolled
over its exact iteration count (each pass subtracts the fixed positive period,
so the guard admits precisely `timer_counter / period` passes).  Returns the
final `(timer_counter, tima, iflag)`. -/
def timerLoop (period tma : Nat) : Nat → Nat → Nat → Nat → Nat × Nat × Nat
  | 0, counter, tima, iflag => (counter, tima, iflag)
  | n + 1, counter, tima, iflag =>
    let r := timaStep tima tma iflag
    timerLoop period tma n (counter - period) r.1 r.2

/-- `Bus::tick_timer`: advance DIV by `cycles * 4` (wrapping `u16`), then, if
TAC bit 2 is set, feed `cycles` into the TIMA accumulator. -/
def Bus.tick_timer (b : Bus) (cycles : Nat) : Bus :=
  let b := { b with div := (b.div + (cycles * 4) % 65536) % 65536 }
  if b.tac &&& 0x04 == 0 then b
  else
    let counter := b.timer_counter + cycles
    let period := b.timer_freq_divider
    let r := timerLoop period b.tma (counter / period) counter b.tima b.iflag
    { b with timer_counter := r.1, tima := r.2.1, iflag := r.2.2 }

/-- `Bus::step`: advance the PPU, latch VBlank into `iflag` bit 0 and STAT
into bit 1, then advance the timer. -/
def Bus.step (b : Bus) (cycles : Nat) : Bus :=
  let r := b.ppu.step cycles b.vram
  let b := { b with ppu := r.1 }
  let b := if r.2.1 then { b with iflag := b.iflag ||| 0x01 } else b
  let b := if r.2.2 then { b with iflag := b.iflag ||| 0x02 } else b
  b.tick_timer cycles

/-- Outcome of one `Cpu::step`: either the new CPU and bus plus the cycle
count the Rust function returns, or the `panic!` on a dispatch miss, carrying
the offending opcode and the address it was fetched from. -/
inductive StepResult where
  | ok (cpu : Cpu) (bus : Bus) (cycles : Nat)
  | panicked (op : Nat) (pc : Nat)

/-- `u8::trailing_zeros` for a byte (8 when the byte is zero). -/
def trailingZeros8 (n : Nat) : Nat :=
  if n &&& 0x01 != 0 then 0
  else if n &&& 0x02 != 0 then 1
  else if n &&& 0x04 != 0 then 2
  else if n &&& 0x08 != 0 then 3
  else if n &&& 0x10 != 0 then 4
  else if n &&& 0x20 != 0 then 5
  else if n &&& 0x40 != 0 then 6
  else if n &&& 0x80 != 0 then 7
  else 8

/-- `u8::rotate_left(1)`. -/
def rotl8 (v : Nat) : Nat := ((v <<< 1) &&& 0xFF) ||| (v >>> 7)

/-- `u8::rotate_right(1)`. -/
def rotr8 (v : Nat) : Nat := (v >>> 1) ||| ((v &&& 1) <<< 7)

/-- `v as i8 as i16 as u16`: sign-extend a byte to 16 bits. -/
def sgn8 (v : Nat) : Nat := if v < 0x80 then v else v + 0xFF00

/-- `Cpu::bc`. -/
def Cpu.bc (s : Cpu) : Nat := (s.b <<< 8) ||| s.c

/-- `Cpu::set_bc`. -/
def Cpu.set_bc (s : Cpu) (v : Nat) : Cpu :=
  { s with b := (v >>> 8) % 256, c := v % 256 }

/-- `Cpu::de`. -/
def Cpu.de (s : Cpu) : Nat := (s.d <<< 8) ||| s.e

/-- `Cpu::set_de`. -/
def Cpu.set_de (s : Cpu) (v : Nat) : Cpu :=
  { s with d := (v >>> 8) % 256, e := v % 256 }

/-- `Cpu::hl`. -/
def Cpu.hl (s : Cpu) : Nat := (s.h <<< 8) ||| s.l

/-- `Cpu::set_hl`. -/
def Cpu.set_hl (s : Cpu) (v : Nat) : Cpu :=
  { s with h := (v >>> 8) % 256, l := v % 256 }

/-- `Cpu::get_reg` (index 6 is `unreachable!()` in the source: every caller
guards it; the model returns 0 there). -/
def Cpu.get_reg (s : Cpu) (idx : Nat) : Nat :=
  match idx with
  | 0 => s.b
  | 1 => s.c
  | 2 => s.d
  | 3 => s.e
  | 4 => s.h
  | 5 => s.l
  | 6 => 0
  | _ => s.a

/-- `Cpu::set_reg` (index 6 unreachable, a no-op in the model). -/
def Cpu.set_reg (s : Cpu) (idx v : Nat) : Cpu :=
  match idx with
  | 0 => { s with b := v }
  | 1 => { s with c := v }
  | 2 => { s with d := v }
  | 3 => { s with e := v }
  | 4 => { s with h := v }
  | 5 => { s with l := v }
  | 6 => s
  | _ => { s with a := v }

/-- `Cpu::fetch8`: read the byte at PC and advance PC (wrapping `u16`). -/
def Cpu.fetch8 (s : Cpu) (b : Bus) : Nat × Cpu :=
  (b.read8 s.pc, { s with pc := (s.pc + 1) % 65536 })

/-- `Cpu::fetch16`: little-endian 16-bit fetch. -/
def Cpu.fetch16 (s : Cpu) (b : Bus) : Nat × Cpu :=
  let r1 := s.fetch8 b
  let r2 := r1.2.fetch8 b
  ((r2.1 <<< 8) ||| r1.1, r2.2)

/-- `Cpu::inc8`: 8-bit increment with Z/N/H updates (C preserved). -/
def Cpu.inc8 (s : Cpu) (v : Nat) : Nat × Cpu :=
  let res := (v + 1) % 256
  (res, { s with f := { s.f with z := res == 0, n := false, h := v &&& 0x0F == 0x0F } })

/-- `Cpu::dec8`: 8-bit decrement with Z/N/H updates (C preserved). -/
def Cpu.dec8 (s : Cpu) (v : Nat) : Nat × Cpu :=
  let res := (v + 255) % 256
  (res, { s with f := { s.f with z := res == 0, n := true, h := v &&& 0x0F == 0 } })

/-- `Cpu::add_a`. -/
def Cpu.add_a (s : Cpu) (v : Nat) : Cpu :=
  let res := (s.a + v) % 256
  { s with a := res,
           f := { z := res == 0, n := false,
                  h := decide (0x0F < (s.a &&& 0x0F) + (v &&& 0x0F)),
                  c := decide (256 ≤ s.a + v) } }

/-- `Cpu::sub_a`. -/
def Cpu.sub_a (s : Cpu) (v : Nat) : Cpu :=
  let res := (s.a + 256 - v % 256) % 256
  { s with a := res,
           f := { z := res == 0, n := true,
                  h := decide ((s.a &&& 0x0F) < (v &&& 0x0F)),
                  c := decide (s.a < v) } }

/-- `Cpu::adc_a`. -/
def Cpu.adc_a (s : Cpu) (v : Nat) : Cpu :=
  let cin := if s.f.c then 1 else 0
  let t := (s.a + v) % 256
  let res := (t + cin) % 256
  { s with a := res,
           f := { z := res == 0, n := false,
                  h := decide (0x0F < (s.a &&& 0x0F) + (v &&& 0x0F) + cin),
                  c := decide (256 ≤ s.a + v) || decide (256 ≤ t + cin) } }

/-- `Cpu::sbc_a`. -/
def Cpu.sbc_a (s : Cpu) (v : Nat) : Cpu :=
  let cin := if s.f.c then 1 else 0
  let t := (s.a + 256 - v % 256) % 256
  let res := (t + 256 - cin) % 256
  { s with a := res,
           f := { z := res == 0, n := true,
                  h := decide ((s.a &&& 0x0F) < (v &&& 0x0F) + cin),
                  c := decide (s.a < v) || decide (t < cin) } }

/-- `Cpu::and_a`. -/
def Cpu.and_a (s : Cpu) (v : Nat) : Cpu :=
  let res := s.a &&& v
  { s with a := res, f := { z := res == 0, n := false, h := true, c := false } }

/-- `Cpu::xor_a`. -/
def Cpu.xor_a (s : Cpu) (v : Nat) : Cpu :=
  let res := s.a ^^^ v
  { s with a := res, f := { z := res == 0, n := false, h := false, c := false } }

/-- `Cpu::or_a`. -/
def Cpu.or_a (s : Cpu) (v : Nat) : Cpu :=
  let res := s.a ||| v
  { s with a := res, f := { z := res == 0, n := false, h := false, c := false } }

/-- `Cpu::cp_a`: compare (SUB flags without storing the result). -/
def Cpu.cp_a (s : Cpu) (v : Nat) : Cpu :=
  let res := (s.a + 256 - v % 256) % 256
  { s with f := { z := res == 0, n := true,
                  h := decide ((s.a &&& 0x0F) < (v &&& 0x0F)),
                  c := decide (s.a < v) } }

/-- `Cpu::push16`: decrement SP, store the high byte, decrement SP, store the
low byte (both through `Bus::write8`). -/
def Cpu.push16 (s : Cpu) (b : Bus) (v : Nat) : Cpu × Bus :=
  let sp1 := (s.sp + 65535) % 65536
  let b := b.write8 sp1 ((v >>> 8) % 256)
  let sp2 := (sp1 + 65535) % 65536
  let b := b.write8 sp2 (v &&& 0xFF)
  ({ s with sp := sp2 }, b)

/-- `Cpu::pop16`: read the low byte at SP, the high byte at SP+1, and bump SP
by two (wrapping). -/
def Cpu.pop16 (s : Cpu) (b : Bus) : Nat × Cpu :=
  let lo := b.read8 s.sp
  let sp1 := (s.sp + 1) % 65536
  let hi := b.read8 sp1
  ((hi <<< 8) ||| lo, { s with sp := (sp1 + 1) % 65536 })

/-- `Cpu::cb_op`: the 0xCB-prefixed dispatch.  `op & 7` selects the target
(6 = `(HL)`), bits 5..3 the sub-op or bit index, bits 7..6 the group
(0 rot/shift/swap, 1 BIT, 2 RES, 3 SET).  As in the source, `cycles` is
computed up front (16 for `(HL)` targets, 8 otherwise, for every group) and
returned after the group dispatch, which only updates the CPU and bus. -/
def Cpu.cb_op (s : Cpu) (op : Nat) (b : Bus) : Cpu × Bus × Nat :=
  let target := op &&& 0x07
  let bit := (op >>> 3) &&& 0x07
  let group := op >>> 6
  let val := if target == 6 then b.read8 s.hl else s.get_reg target
  let cycles := if target == 6 then 16 else 8
  let sb : Cpu × Bus :=
  if group == 0 then
    let r : Nat × Cpu :=
      if bit == 0 then
        let carry := val &&& 0x80 != 0
        let val := rotl8 val
        (val, { s with f := { z := val == 0, n := false, h := false, c := carry } })
      else if bit == 1 then
        let carry := val &&& 1 != 0
        let val := rotr8 val
        (val, { s with f := { z := val == 0, n := false, h := false, c := carry } })
      else if bit == 2 then
        let carry := val &&& 0x80 != 0
        let val := ((val <<< 1) &&& 0xFF) ||| (if s.f.c then 1 else 0)
        (val, { s with f := { z := val == 0, n := false, h := false, c := carry } })
      else if bit == 3 then
        let carry := val &&& 1 != 0
        let val := (val >>> 1) ||| ((if s.f.c then 1 else 0) <<< 7)
        (val, { s with f := { z := val == 0, n := false, h := false, c := carry } })
      else if bit == 4 then
        let carry := val &&& 0x80 != 0
        let val := (val <<< 1) &&& 0xFF
        (val, { s with f := { z := val == 0, n := false, h := false, c := carry } })
      else if bit == 5 then
        let carry := val &&& 1 != 0
        let val := (val >>> 1) ||| (val &&& 0x80)
        (val, { s with f := { z := val == 0, n := false, h := false, c := carry } })
      else if bit == 6 then
        let val := (val >>> 4) ||| ((val <<< 4) &&& 0xFF)
        (val, { s with f := { z := val == 0, n := false, h := false, c := false } })
      else
        let carry := val &&& 1 != 0
        let val := val >>> 1
        (val, { s with f := { z := val == 0, n := false, h := false, c := carry } })
    let val := r.1
    let s := r.2
    if target == 6 then (s, b.write8 s.hl val)
    else (s.set_reg target val, b)
  else if group == 1 then
    let mask := 1 <<< bit
    ({ s with f := { s.f with z := val &&& mask == 0, n := false, h := true } }, b)
  else if group == 2 then
    let val := val &&& (0xFF ^^^ (1 <<< bit))
    if target == 6 then (s, b.write8 s.hl val)
    else (s.set_reg target val, b)
  else
    let val := val ||| (1 <<< bit)
    if target == 6 then (s, b.write8 s.hl val)
    else (s.set_reg target val, b)
  (sb.1, sb.2, cycles)

set_option maxRecDepth 8192 in
/-- The opcode dispatch of `Cpu::step` (everything after the interrupt / HALT
checks and the fetch of `op`).  `s` is the CPU with PC already advanced past
the opcode byte.  Arm order follows the source match; all patterns are
disjoint, so the if-chain is equivalent to it.  The wildcard arm is the
`panic!("Unimplemented opcode ...")`, which reports the opcode and
`pc.wrapping_sub(1)`, the address it was fetched from. -/
def Cpu.exec (op : Nat) (s : Cpu) (b : Bus) : StepResult :=
  if op = 0x00 then .ok s b 4
  else if op = 0x01 then
    let r := s.fetch16 b
    .ok (r.2.set_bc r.1) b 12
  else if op = 0x02 then .ok s (b.write8 s.bc s.a) 8
  else if op = 0x03 then .ok (s.set_bc ((s.bc + 1) % 65536)) b 8
  else if op = 0x04 then
    let r := s.inc8 s.b
    .ok { r.2 with b := r.1 } b 4
  else if op = 0x05 then
    let r := s.dec8 s.b
    .ok { r.2 with b := r.1 } b 4
  else if op = 0x06 then
    let r := s.fetch8 b
    .ok { r.2 with b := r.1 } b 8
  else if op = 0x07 then
    let carry := s.a &&& 0x80 != 0
    .ok { s with a := rotl8 s.a,
                 f := { z := false, n := false, h := false, c := carry } } b 4
  else if op = 0x08 then
    let r := s.fetch16 b
    let addr := r.1
    let s := r.2
    let b := b.write8 addr (s.sp &&& 0xFF)
    let b := b.write8 ((addr + 1) % 65536) ((s.sp >>> 8) % 256)
    .ok s b 20
  else if op = 0x09 then
    let hl := s.hl
    let bc := s.bc
    let s := { s with f := { s.f with
                             n := false,
                             h := decide (0x0FFF < (hl &&& 0x0FFF) + (bc &&& 0x0FFF)),
                             c := decide (0xFFFF - bc < hl) } }
    .ok (s.set_hl ((hl + bc) % 65536)) b 8
  else if op = 0x0A then .ok { s with a := b.read8 s.bc } b 8
  else if op = 0x0B then .ok (s.set_bc ((s.bc + 65535) % 65536)) b 8
  else if op = 0x0C then
    let res := (s.c + 1) % 256
    .ok { s with c := res,
                 f := { s.f with z := res == 0, n := false, h := s.c &&& 0x0F == 0x0F } } b 4
  else if op = 0x0D then
    let res := (s.c + 255) % 256
    .ok { s with c := res,
                 f := { s.f with z := res == 0, n := true, h := s.c &&& 0x0F == 0 } } b 4
  else if op = 0x0E then
    let r := s.fetch8 b
    .ok { r.2 with c := r.1 } b 8
  else if op = 0x0F then
    let carry := s.a &&& 1 != 0
    .ok { s with a := rotr8 s.a,
                 f := { z := false, n := false, h := false, c := carry } } b 4
  else if op = 0x10 then .ok s b 4
  else if op = 0x11 then
    let r := s.fetch16 b
    .ok (r.2.set_de r.1) b 12
  else if op = 0x12 then .ok s (b.write8 s.de s.a) 8
  else if op = 0x13 then .ok (s.set_de ((s.de + 1) % 65536)) b 8
  else if op = 0x14 then
    let r := s.inc8 s.d
    .ok { r.2 with d := r.1 } b 4
  else if op = 0x15 then
    let r := s.dec8 s.d
    .ok { r.2 with d := r.1 } b 4
  else if op = 0x16 then
    let r := s.fetch8 b
    .ok { r.2 with d := r.1 } b 8
  else if op = 0x17 then
    let new_c := s.a &&& 0x80 != 0
    let a := ((s.a <<< 1) &&& 0xFF) ||| (if s.f.c then 1 else 0)
    .ok { s with a := a, f := { z := false, n := false, h := false, c := new_c } } b 4
  else if op = 0x18 then
    let r := s.fetch8 b
    let s := r.2
    .ok { s with pc := (s.pc + sgn8 r.1) % 65536 } b 12
  else if op = 0x19 then
    let hl := s.hl
    let de := s.de
    let s := { s with f := { s.f with
                             n := false,
                             h := decide (0x0FFF < (hl &&& 0x0FFF) + (de &&& 0x0FFF)),
                             c := decide (0xFFFF - de < hl) } }
    .ok (s.set_hl ((hl + de) % 65536)) b 8
  else if op = 0x1A then .ok { s with a := b.read8 s.de } b 8
  else if op = 0x1B then .ok (s.set_de ((s.de + 65535) % 65536)) b 8
  else if op = 0x1C then
    let r := s.inc8 s.e
    .ok { r.2 with e := r.1 } b 4
  else if op = 0x1D then
    let r := s.dec8 s.e
    .ok { r.2 with e := r.1 } b 4
  else if op = 0x1E then
    let r := s.fetch8 b
    .ok { r.2 with e := r.1 } b 8
  else if op = 0x1F then
    let new_c := s.a &&& 1 != 0
    let a := (s.a >>> 1) ||| ((if s.f.c then 1 else 0) <<< 7)
    .ok { s with a := a, f := { z := false, n := false, h := false, c := new_c } } b 4
  else if op = 0x20 then
    let r := s.fetch8 b
    let s := r.2
    if !s.f.z then .ok { s with pc := (s.pc + sgn8 r.1) % 65536 } b 12
    else .ok s b 8
  else if op = 0x21 then
    let r := s.fetch16 b
    .ok (r.2.set_hl r.1) b 12
  else if op = 0x22 then
    let addr := s.hl
    let b := b.write8 addr s.a
    .ok (s.set_hl ((addr + 1) % 65536)) b 8
  else if op = 0x23 then .ok (s.set_hl ((s.hl + 1) % 65536)) b 8
  else if op = 0x28 then
    let r := s.fetch8 b
    let s := r.2
    if s.f.z then .ok { s with pc := (s.pc + sgn8 r.1) % 65536 } b 12
    else .ok s b 8
  else if op = 0x2A then
    let addr := s.hl
    let s := { s with a := b.read8 addr }
    .ok (s.set_hl ((addr + 1) % 65536)) b 8
  else if op = 0x2B then .ok (s.set_hl ((s.hl + 65535) % 65536)) b 8
  else if op = 0x24 then
    let r := s.inc8 s.h
    .ok { r.2 with h := r.1 } b 4
  else if op = 0x25 then
    let r := s.dec8 s.h
    .ok { r.2 with h := r.1 } b 4
  else if op = 0x26 then
    let r := s.fetch8 b
    .ok { r.2 with h := r.1 } b 8
  else if op = 0x27 then
    let a0 : Int := s.a
    let r : Int × Bool :=
      if !s.f.n then
        let a1 := if s.f.h || 9 < s.a &&& 0x0F then a0 + 0x06 else a0
        if s.f.c || 0x9F < a1 then (a1 + 0x60, true) else (a1, s.f.c)
      else
        let a1 := if s.f.h then (a0 - 0x06).emod 256 else a0
        (if s.f.c then a1 - 0x60 else a1, s.f.c)
    let a := (r.1.emod 256).toNat
    .ok { s with a := a,
                 f := { s.f with z := a == 0, h := false, c := r.2 } } b 4
  else if op = 0x29 then
    let hl := s.hl
    let s := { s with f := { s.f with
                             n := false,
                             h := decide (0x0FFF < (hl &&& 0x0FFF) + (hl &&& 0x0FFF)),
                             c := decide (0x7FFF < hl) } }
    .ok (s.set_hl ((hl + hl) % 65536)) b 8
  else if op = 0x2C then
    let res := (s.l + 1) % 256
    .ok { s with l := res,
                 f := { s.f with z := res == 0, n := false, h := s.l &&& 0x0F == 0x0F } } b 4
  else if op = 0x2D then
    let r := s.dec8 s.l
    .ok { r.2 with l := r.1 } b 4
  else if op = 0x2E then
    let r := s.fetch8 b
    .ok { r.2 with l := r.1 } b 8
  else if op = 0x2F then
    .ok { s with a := 0xFF - s.a % 256,
                 f := { s.f with n := true, h := true } } b 4
  else if op = 0x31 then
    let r := s.fetch16 b
    .ok { r.2 with sp := r.1 } b 12
  else if op = 0x30 then
    let r := s.fetch8 b
    let s := r.2
    if !s.f.c then .ok { s with pc := (s.pc + sgn8 r.1) % 65536 } b 12
    else .ok s b 8
  else if op = 0x32 then
    let addr := s.hl
    let b := b.write8 addr s.a
    .ok (s.set_hl ((addr + 65535) % 65536)) b 8
  else if op = 0x33 then .ok { s with sp := (s.sp + 1) % 65536 } b 8
  else if op = 0x34 then
    let addr := s.hl
    let v := b.read8 addr
    let res := (v + 1) % 256
    let b := b.write8 addr res
    .ok { s with f := { s.f with z := res == 0, n := false, h := v &&& 0x0F == 0x0F } } b 12
  else if op = 0x35 then
    let addr := s.hl
    let v := b.read8 addr
    let res := (v + 255) % 256
    let b := b.write8 addr res
    .ok { s with f := { s.f with z := res == 0, n := true, h := v &&& 0x0F == 0 } } b 12
  else if op = 0x36 then
    let r := s.fetch8 b
    let s := r.2
    .ok s (b.write8 s.hl r.1) 12
  else if op = 0x38 then
    let r := s.fetch8 b
    let s := r.2
    if s.f.c then .ok { s with pc := (s.pc + sgn8 r.1) % 65536 } b 12
    else .ok s b 8
  else if op = 0x39 then
    let hl := s.hl
    let sp := s.sp
    let s := { s with f := { s.f with
                             n := false,
                             h := decide (0x0FFF < (hl &&& 0x0FFF) + (sp &&& 0x0FFF)),
                             c := decide (0xFFFF - sp < hl) } }
    .ok (s.set_hl ((hl + sp) % 65536)) b 8
  else if op = 0x3A then
    let addr := s.hl
    let s := { s with a := b.read8 addr }
    .ok (s.set_hl ((addr + 65535) % 65536)) b 8
  else if op = 0x3B then .ok { s with sp := (s.sp + 65535) % 65536 } b 8
  else if op = 0x3C then
    let res := (s.a + 1) % 256
    .ok { s with a := res,
                 f := { s.f with z := res == 0, n := false, h := s.a &&& 0x0F == 0x0F } } b 4
  else if op = 0x3D then
    let r := s.dec8 s.a
    .ok { r.2 with a := r.1 } b 4
  else if op = 0x3E then
    let r := s.fetch8 b
    .ok { r.2 with a := r.1 } b 8
  else if op = 0x3F then
    .ok { s with f := { s.f with c := !s.f.c, n := false, h := false } } b 4
  else if op = 0x37 then
    .ok { s with f := { s.f with c := true, n := false, h := false } } b 4
  else if 0x40 ≤ op ∧ op ≤ 0x7F then
    if op = 0x76 then .ok { s with halted := true } b 4
    else
      let dst := (op >>> 3) &&& 0x07
      let src := op &&& 0x07
      let val := if src == 6 then b.read8 s.hl else s.get_reg src
      let cycles := 4 + (if src == 6 || dst == 6 then 4 else 0)
      if dst == 6 then .ok s (b.write8 s.hl val) cycles
      else .ok (s.set_reg dst val) b cycles
  else if 0x80 ≤ op ∧ op ≤ 0x87 then
    let v := if op = 0x86 then b.read8 s.hl else s.get_reg (op &&& 0x07)
    .ok (s.add_a v) b (4 + if op = 0x86 then 4 else 0)
  else if 0x88 ≤ op ∧ op ≤ 0x8F then
    let v := if op = 0x8E then b.read8 s.hl else s.get_reg (op &&& 0x07)
    .ok (s.adc_a v) b (4 + if op = 0x8E then 4 else 0)
  else if 0x90 ≤ op ∧ op ≤ 0x97 then
    let v := if op = 0x96 then b.read8 s.hl else s.get_reg (op &&& 0x07)
    .ok (s.sub_a v) b (4 + if op = 0x96 then 4 else 0)
  else if 0x98 ≤ op ∧ op ≤ 0x9F then
    let v := if op = 0x9E then b.read8 s.hl else s.get_reg (op &&& 0x07)
    .ok (s.sbc_a v) b (4 + if op = 0x9E then 4 else 0)
  else if 0xA0 ≤ op ∧ op ≤ 0xA7 then
    let v := if op = 0xA6 then b.read8 s.hl else s.get_reg (op &&& 0x07)
    .ok (s.and_a v) b (4 + if op = 0xA6 then 4 else 0)
  else if 0xA8 ≤ op ∧ op ≤ 0xAF then
    let v := if op = 0xAE then b.read8 s.hl else s.get_reg (op &&& 0x07)
    .ok (s.xor_a v) b (4 + if op = 0xAE then 4 else 0)
  else if 0xB0 ≤ op ∧ op ≤ 0xB7 then
    let v := if op = 0xB6 then b.read8 s.hl else s.get_reg (op &&& 0x07)
    .ok (s.or_a v) b (4 + if op = 0xB6 then 4 else 0)
  else if 0xB8 ≤ op ∧ op ≤ 0xBF then
    let v := if op = 0xBE then b.read8 s.hl else s.get_reg (op &&& 0x07)
    .ok (s.cp_a v) b (4 + if op = 0xBE then 4 else 0)
  else if op = 0xC1 then
    let r := s.pop16 b
    .ok (r.2.set_bc r.1) b 12
  else if op = 0xC0 then
    if !s.f.z then
      let r := s.pop16 b
      .ok { r.2 with pc := r.1 } b 20
    else .ok s b 8
  else if op = 0xC3 then
    let r := s.fetch16 b
    .ok { r.2 with pc := r.1 } b 16
  else if op = 0xC2 then
    let r := s.fetch16 b
    let s := r.2
    if !s.f.z then .ok { s with pc := r.1 } b 16 else .ok s b 12
  else if op = 0xC5 then
    let r := s.push16 b s.bc
    .ok r.1 r.2 16
  else if op = 0xC6 then
    let r := s.fetch8 b
    .ok (r.2.add_a r.1) b 8
  else if op = 0xC7 then
    let r := s.push16 b s.pc
    .ok { r.1 with pc := 0x00 } r.2 16
  else if op = 0xC8 then
    if s.f.z then
      let r := s.pop16 b
      .ok { r.2 with pc := r.1 } b 20
    else .ok s b 8
  else if op = 0xC9 then
    let r := s.pop16 b
    .ok { r.2 with pc := r.1 } b 16
  else if op = 0xCE then
    let r := s.fetch8 b
    .ok (r.2.adc_a r.1) b 8
  else if op = 0xCA then
    let r := s.fetch16 b
    let s := r.2
    if s.f.z then .ok { s with pc := r.1 } b 16 else .ok s b 12
  else if op = 0xCF then
    let r := s.push16 b s.pc
    .ok { r.1 with pc := 0x08 } r.2 16
  else if op = 0xCB then
    let r := s.fetch8 b
    let r2 := r.2.cb_op r.1 b
    .ok r2.1 r2.2.1 r2.2.2
  else if op = 0xD2 then
    let r := s.fetch16 b
    let s := r.2
    if !s.f.c then .ok { s with pc := r.1 } b 16 else .ok s b 12
  else if op = 0xDA then
    let r := s.fetch16 b
    let s := r.2
    if s.f.c then .ok { s with pc := r.1 } b 16 else .ok s b 12
  else if op = 0xCC then
    let r := s.fetch16 b
    let s := r.2
    if s.f.z then
      let r2 := s.push16 b s.pc
      .ok { r2.1 with pc := r.1 } r2.2 24
    else .ok s b 12
  else if op = 0xC4 then
    let r := s.fetch16 b
    let s := r.2
    if !s.f.z then
      let r2 := s.push16 b s.pc
      .ok { r2.1 with pc := r.1 } r2.2 24
    else .ok s b 12
  else if op = 0xCD then
    let r := s.fetch16 b
    let s := r.2
    let r2 := s.push16 b s.pc
    .ok { r2.1 with pc := r.1 } r2.2 24
  else if op = 0xD1 then
    let r := s.pop16 b
    .ok (r.2.set_de r.1) b 12
  else if op = 0xD0 then
    if !s.f.c then
      let r := s.pop16 b
      .ok { r.2 with pc := r.1 } b 20
    else .ok s b 8
  else if op = 0xD5 then
    let r := s.push16 b s.de
    .ok r.1 r.2 16
  else if op = 0xD6 then
    let r := s.fetch8 b
    .ok (r.2.sub_a r.1) b 8
  else if op = 0xD7 then
    let r := s.push16 b s.pc
    .ok { r.1 with pc := 0x10 } r.2 16
  else if op = 0xD9 then
    let r := s.pop16 b
    .ok { r.2 with ime := true, pc := r.1 } b 16
  else if op = 0xD8 then
    if s.f.c then
      let r := s.pop16 b
      .ok { r.2 with pc := r.1 } b 20
    else .ok s b 8
  else if op = 0xDE then
    let r := s.fetch8 b
    .ok (r.2.sbc_a r.1) b 8
  else if op = 0xDF then
    let r := s.push16 b s.pc
    .ok { r.1 with pc := 0x18 } r.2 16
  else if op = 0xD4 then
    let r := s.fetch16 b
    let s := r.2
    if !s.f.c then
      let r2 := s.push16 b s.pc
      .ok { r2.1 with pc := r.1 } r2.2 24
    else .ok s b 12
  else if op = 0xDC then
    let r := s.fetch16 b
    let s := r.2
    if s.f.c then
      let r2 := s.push16 b s.pc
      .ok { r2.1 with pc := r.1 } r2.2 24
    else .ok s b 12
  else if op = 0xE0 then
    let r := s.fetch8 b
    let s := r.2
    .ok s (b.write8 (0xFF00 ||| r.1) s.a) 12
  else if op = 0xE1 then
    let r := s.pop16 b
    .ok (r.2.set_hl r.1) b 12
  else if op = 0xE2 then
    .ok s (b.write8 (0xFF00 ||| s.c) s.a) 8
  else if op = 0xE5 then
    let r := s.push16 b s.hl
    .ok r.1 r.2 16
  else if op = 0xE6 then
    let r := s.fetch8 b
    let s := r.2
    let a := s.a &&& r.1
    .ok { s with a := a, f := { z := a == 0, n := false, h := true, c := false } } b 8
  else if op = 0xEE then
    let r := s.fetch8 b
    .ok (r.2.xor_a r.1) b 8
  else if op = 0xE8 then
    let r := s.fetch8 b
    let s := r.2
    let n := sgn8 r.1
    let sp := s.sp
    .ok { s with sp := (sp + n) % 65536,
                 f := { z := false, n := false,
                        h := decide (0x0F < (sp &&& 0x0F) + (n &&& 0x0F)),
                        c := decide (0xFF < (sp &&& 0xFF) + (n &&& 0xFF)) } } b 16
  else if op = 0xEA then
    let r := s.fetch16 b
    let s := r.2
    .ok s (b.write8 r.1 s.a) 16
  else if op = 0xEF then
    let r := s.push16 b s.pc
    .ok { r.1 with pc := 0x28 } r.2 16
  else if op = 0xE9 then .ok { s with pc := s.hl } b 4
  else if op = 0xE7 then
    let r := s.push16 b s.pc
    .ok { r.1 with pc := 0x20 } r.2 16
  else if op = 0xF0 then
    let r := s.fetch8 b
    let s := r.2
    .ok { s with a := b.read8 (0xFF00 ||| r.1) } b 12
  else if op = 0xF1 then
    let r := s.pop16 b
    let s := r.2
    .ok { s with a := (r.1 >>> 8) % 256, f := Flags.from_byte (r.1 &&& 0xF0) } b 12
  else if op = 0xF2 then
    .ok { s with a := b.read8 (0xFF00 ||| s.c) } b 8
  else if op = 0xF3 then .ok { s with ime := false } b 4
  else if op = 0xF7 then
    let r := s.push16 b s.pc
    .ok { r.1 with pc := 0x30 } r.2 16
  else if op = 0xF8 then
    let r := s.fetch8 b
    let s := r.2
    let n := sgn8 r.1
    let res := (s.sp + n) % 65536
    let s := { s with f := { z := false, n := false,
                             h := decide (0x0F < (s.sp &&& 0x0F) + (n &&& 0x0F)),
                             c := decide (0xFF < (s.sp &&& 0xFF) + (n &&& 0xFF)) } }
    .ok (s.set_hl res) b 12
  else if op = 0xF9 then .ok { s with sp := s.hl } b 8
  else if op = 0xF5 then
    let v := (s.a <<< 8) ||| s.f.to_byte
    let r := s.push16 b v
    .ok r.1 r.2 16
  else if op = 0xF6 then
    let r := s.fetch8 b
    let s := r.2
    let a := s.a ||| r.1
    .ok { s with a := a, f := { z := a == 0, n := false, h := false, c := false } } b 8
  else if op = 0xFA then
    let r := s.fetch16 b
    .ok { r.2 with a := b.read8 r.1 } b 16
  else if op = 0xFB then .ok { s with ime := true } b 4
  else if op = 0xFF then
    let r := s.push16 b s.pc
    .ok { r.1 with pc := 0x38 } r.2 16
  else if op = 0xFE then
    let r := s.fetch8 b
    let s := r.2
    let v := r.1
    let res := (s.a + 256 - v % 256) % 256
    .ok { s with f := { z := res == 0, n := true,
                        h := decide ((s.a &&& 0x0F) < (v &&& 0x0F)),
                        c := decide (s.a < v) } } b 8
  else .panicked op ((s.pc + 65535) % 65536)

/-- `Cpu::step`: interrupt dispatch (IME set and some `ie & iflag` bit
pending), HALT wake-up / idle, then fetch and dispatch. -/
def Cpu.step (s : Cpu) (b : Bus) : StepResult :=
  let pending := b.ie &&& b.iflag
  if pending ≠ 0 ∧ s.ime then
    let s := { s with halted := false }
    let bit := trailingZeros8 pending
    let b := { b with iflag := b.iflag &&& (0xFF ^^^ (1 <<< bit)) }
    let s := { s with ime := false }
    let r := s.push16 b s.pc
    .ok { r.1 with pc := 0x40 + bit * 8 } r.2 20
  else
    let s := if pending ≠ 0 ∧ s.halted then { s with halted := false } else s
    if s.halted then .ok s b 4
    else
      let r := s.fetch8 b
      Cpu.exec r.1 r.2 b

/-- Outcome of `Emulator::run_frame`: either the frame completed normally, or
a CPU step panicked on an unimplemented opcode. -/
inductive FrameResult where
  | done (cpu : Cpu) (bus : Bus) (cycles : Nat)
  | panicked (op : Nat) (pc : Nat)

/-- The `while cycles < 70224` loop of `Emulator::run_frame`, with an explicit
iteration budget (`none` = budget exhausted; the termination theorem shows a
budget of 17556 always suffices because every step costs at least 4 cycles). -/
def runFrameLoop : Nat → Nat → Cpu → Bus → Option FrameResult
  | fuel, cycles, s, b =>
    if cycles < 70224 then
      match fuel with
      | 0 => none
      | fuel + 1 =>
        match s.step b with
        | .panicked op pc => some (.panicked op pc)
        | .ok s' b' n => runFrameLoop fuel (cycles + n) s' (b'.step n)
    else some (.done s b cycles)

/-- `Emulator::run_frame`, starting from a CPU and bus. -/
def runFrame (s : Cpu) (b : Bus) : Option FrameResult :=
  runFrameLoop 17556 0 s b

/-! ### Projections and concrete states used in the statements below -/

/-- The bus component of a non-panicking step. -/
def StepResult.busOf : StepResult → Option Bus
  | .ok _ b _ => some b
  | .panicked _ _ => none

/-- The CPU component of a non-panicking step. -/
def StepResult.cpuOf : StepResult → Option Cpu
  | .ok s _ _ => some s
  | .panicked _ _ => none

/-- The cycle count of a non-panicking step. -/
def StepResult.cyclesOf : StepResult → Option Nat
  | .ok _ _ n => some n
  | .panicked _ _ => none

/-- Execute opcode `op1` then opcode `op2` and return the final CPU (used to
state push-then-pop round-trips). -/
def pushPopCpu (op1 op2 : Nat) (s : Cpu) (b : Bus) : Option Cpu :=
  match Cpu.exec op1 s b with
  | .ok s1 b1 _ =>
    match Cpu.exec op2 s1 b1 with
    | .ok s2 _ _ => some s2
    | .panicked _ _ => none
  | .panicked _ _ => none

/-- An all-zero 32 KiB cartridge. -/
def zeroCart : Cartridge := { rom := fun _ => 0, romLen := 0x8000 }

/-- A freshly constructed bus over the all-zero cartridge. -/
def zeroBus : Bus := Bus.new zeroCart

/-- A cartridge whose entry byte (0x0100) is the unimplemented opcode 0xD3. -/
def d3Cart : Cartridge := { rom := fun i => if i == 0x0100 then 0xD3 else 0, romLen := 0x8000 }

/-- Bus over `d3Cart`. -/
def d3Bus : Bus := Bus.new d3Cart

/-- CPU about to take an interrupt while SP = 0xFF10, so the pushed high byte
of PC lands on the interrupt-flag register 0xFF0F. -/
def ffCpu : Cpu := { Cpu.new with sp := 0xFF10, ime := true }

/-- Bus with VBlank (bit 0) enabled and pending. -/
def ffBus : Bus := { zeroBus with ie := 1, iflag := 1 }

/-- Bus whose PPU has LY = LYC = 0 and STAT bit 6 (LYC interrupt) enabled. -/
def lycBus : Bus := { zeroBus with ppu := { Ppu.new with stat := 0xC5 } }

/-- CPU whose SP points into the ROM region, where writes are dropped. -/
def romSpCpu : Cpu := { Cpu.new with sp := 0x0002, b := 0xAB, c := 0xCD }

/-- Bus with the timer enabled at period 16 (TAC = 0b101) and TIMA about to
overflow. -/
def timerBus : Bus := { zeroBus with tac := 0x05, tima := 0xFF, tma := 0x42 }

/-! ### C1 -/

/-- C1, counterexample: the claim says STAT bits 0-1 equal the PPU mode after
every step with the LCD enabled.  Stepping the freshly constructed PPU
(LCDC = 0x91, LCD on) by 4 cycles enters mode 2, but `update_stat` is called
with its `vblank` argument true (the mode changed), which ORs bit 0 into STAT:
STAT bits 0-1 read 3 while the mode is 2. -/
theorem C1_counterexample :
    Ppu.new.lcdc &&& 0x80 ≠ 0 ∧
    (Ppu.new.step 4 (fun _ => 0)).1.mode = 2 ∧
    (Ppu.new.step 4 (fun _ => 0)).1.stat % 4 ≠ (Ppu.new.step 4 (fun _ => 0)).1.mode := by
  decide

/-! ### C3 -/

/-- C3: the claim (and the spec) give BIT n,(HL) a cost of 12 cycles, but
`Cpu::cb_op` returns `if target == 6 { 16 } else { 8 }` for every group, so
BIT 0,(HL) (CB opcode 0x46) costs 16 cycles, for every CPU and bus state. -/
theorem C3_bit_hl_returns_16 : ∀ (s : Cpu) (b : Bus), (Cpu.cb_op s 0x46 b).2.2 = 16 :=
  fun _ _ => rfl

/-! ### C8 -/

/-- C8: fetching the unimplemented opcode 0xD3 at PC = 0x0100 does not produce
an error return value: `Cpu::step` panics (the `panic!` arm of the dispatch),
though the panic does carry the opcode byte and the fetch address. -/
theorem C8_unimplemented_panics :
    Cpu.step Cpu.new d3Bus = StepResult.panicked 0xD3 0x0100 := rfl

/-! ### C2 -/

/-- C2, counterexample: with SP = 0xFF10, the interrupt dispatch's `push16`
writes the high byte of PC (0x01) through the bus to address 0xFF0F, which is
the interrupt-flag register.  The dispatched VBlank bit, though cleared just
before the push, is pending again after the dispatch. -/
theorem C2_counterexample :
    ffBus.ie &&& ffBus.iflag ≠ 0 ∧ ffCpu.ime = true ∧
    (Cpu.step ffCpu ffBus).cyclesOf = some 20 ∧
    (Cpu.step ffCpu ffBus).busOf.map (fun b => b.ie &&& b.iflag) = some 1 := by
  decide

/-! ### C4 -/

/-- C4, counterexample: the STAT interrupt condition in `update_stat` is
level-sensitive, not edge-triggered.  With LY = LYC = 0 and STAT bit 6 set,
`bus.step` raises iflag bit 1; after software clears iflag, the next
`bus.step` — during which LY stayed equal to LYC — raises it again. -/
theorem C4_counterexample :
    (Bus.step lycBus 4).ppu.ly = (Bus.step lycBus 4).ppu.lyc ∧
    (Bus.step lycBus 4).iflag &&& 0x02 = 2 ∧
    (Bus.step { Bus.step lycBus 4 with iflag := 0 } 4).ppu.ly = (Bus.step lycBus 4).ppu.ly ∧
    (Bus.step { Bus.step lycBus 4 with iflag := 0 } 4).iflag &&& 0x02 = 2 := by
  decide

/-! ### C7 -/

/-- C7, counterexample: the claim quantifies over every CPU and bus state, but
with SP = 0x0002 the PUSH BC writes land in the ROM region (0x0000-0x7FFF),
where `Bus::write8` drops them; the following POP BC reads ROM bytes (zero
here) instead, so BC = 0xABCD is not restored. -/
theorem C7_counterexample :
    romSpCpu.bc = 0xABCD ∧
    (pushPopCpu 0xC5 0xC1 romSpCpu zeroBus).map Cpu.bc = some 0 := by
  decide

/-! ### C10 -/

/-- C10, counterexample: under signed addressing, tile number 0 maps to tile
data address 0x9000, outside the 0x8800-0x8FFF window stated by the claim
(the signed tile-data region actually extends to 0x97FF). -/
theorem C10_counterexample :
    tileDataAddr true 0 = 0x9000 ∧ ¬ tileDataAddr true 0 ≤ 0x8FFF := by
  decide

/-- C10, amended: every VRAM index the renderer computes is in bounds.  The
tile-map indices are below 0x2000; unsigned tile addresses lie in
0x8000-0x8FFF; signed tile addresses lie in 0x8800-0x97FF (not 0x8800-0x8FFF
as claimed); and the two tile-data byte indices are below 0x2000, so no VRAM
access in `render_background` is out of bounds. -/
theorem C10_renderer_in_bounds :
    ∀ (lcdc scx scy x y tile_num line win_x win_y : Nat) (use_signed : Bool),
      x < 160 → y < 144 → tile_num < 256 → line < 8 → win_y ≤ y → win_x ≤ x →
      bgMapIdx lcdc scx scy x y < 0x2000 ∧
      winMapIdx lcdc win_x win_y x y < 0x2000 ∧
      (use_signed = false →
        0x8000 ≤ tileDataAddr use_signed tile_num ∧
        tileDataAddr use_signed tile_num + line * 2 + 1 ≤ 0x8FFF) ∧
      (use_signed = true →
        0x8800 ≤ tileDataAddr use_signed tile_num ∧
        tileDataAddr use_signed tile_num + line * 2 + 1 ≤ 0x97FF) ∧
      tileByteIdx use_signed tile_num line 0 < 0x2000 ∧
      tileByteIdx use_signed tile_num line 1 < 0x2000 := by
  intro lcdc scx scy x y tile_num line win_x win_y use_signed hx hy ht hl hwy hwx
  have haddr :
      (use_signed = false →
        0x8000 ≤ tileDataAddr use_signed tile_num ∧
        tileDataAddr use_signed tile_num + line * 2 + 1 ≤ 0x8FFF) ∧
      (use_signed = true →
        0x8800 ≤ tileDataAddr use_signed tile_num ∧
        tileDataAddr use_signed tile_num + line * 2 + 1 ≤ 0x97FF) := by
    unfold tileDataAddr
    cases use_signed with
    | false => simp; omega
    | true =>
      simp only [if_true, if_pos]
      constructor
      · intro hc; cases hc
      · intro _
        split <;> omega
  refine ⟨?_, ?_, haddr.1, haddr.2, ?_, ?_⟩
  · unfold bgMapIdx bgTileMapBase
    have h1 : (y + scy) % 256 / 8 ≤ 31 := by omega
    have h2 : (x + scx) % 256 / 8 ≤ 31 := by omega
    split <;> omega
  · unfold winMapIdx winTileMapBase
    have h1 : (y - win_y) / 8 ≤ 17 := by omega
    have h2 : (x - win_x) / 8 ≤ 19 := by omega
    split <;> omega
  · unfold tileByteIdx
    rcases use_signed with _ | _
    · have := haddr.1 rfl
      omega
    · have := haddr.2 rfl
      omega
  · unfold tileByteIdx
    rcases use_signed with _ | _
    · have := haddr.1 rfl
      omega
    · have := haddr.2 rfl
      omega

/-- C10, witness: the bounds at a concrete pixel and tile. -/
theorem C10_witness :
    bgMapIdx 0x91 0 0 5 7 < 0x2000 ∧
    winMapIdx 0x91 3 2 5 7 < 0x2000 ∧
    tileByteIdx true 0 3 0 < 0x2000 ∧
    tileByteIdx true 0 3 1 < 0x2000 := by
  have h := C10_renderer_in_bounds 0x91 0 0 5 7 0 3 3 2 true
    (by decide) (by decide) (by decide) (by decide) (by decide) (by decide)
  exact ⟨h.1, h.2.1, h.2.2.2.2.1, h.2.2.2.2.2⟩

/-! ### C5 -/

/-- The claim's description of the TIMA work: apply `n` increments, each
reloading TIMA from TMA and raising iflag bit 2 when it would leave 0xFF. -/
def specTimaSteps : Nat → Nat → Nat → Nat → Nat × Nat
  | 0, tima, _, iflag => (tima, iflag)
  | n + 1, tima, tma, iflag =>
    if tima = 0xFF then specTimaSteps n tma tma (iflag ||| 0x04)
    else specTimaSteps n (tima + 1) tma iflag

/-- The timer loop subtracts `period` from the counter once per pass and
performs exactly the TIMA increments the claim describes. -/
theorem timerLoop_eq (period tma : Nat) :
    ∀ (n counter tima iflag : Nat), tima < 256 → tma < 256 →
      timerLoop period tma n counter tima iflag
        = (counter - n * period, specTimaSteps n tima tma iflag) := by
  intro n
  induction n with
  | zero => intro counter tima iflag _ _; simp [timerLoop, specTimaSteps]
  | succ n ih =>
    intro counter tima iflag htima htma
    simp only [timerLoop, specTimaSteps, timaStep]
    by_cases h : tima = 0xFF
    · rw [if_pos (by omega), if_pos h, ih _ _ _ htma htma]
      simp only [Prod.mk.injEq]
      exact ⟨by rw [Nat.succ_mul]; omega, trivial⟩
    · rw [if_neg (by omega), if_neg h, ih _ _ _ (by omega) htma]
      simp only [Prod.mk.injEq]
      exact ⟨by rw [Nat.succ_mul]; omega, trivial⟩

/-- C5: with TAC bit 2 clear, `tick_timer` leaves TIMA, the accumulator and
iflag unchanged; with it set, the counter becomes
`(counter + cycles) mod period` and TIMA/iflag undergo exactly
`(counter + cycles) / period` increments, each overflow reloading TIMA from
TMA and raising iflag bit 2. -/
theorem C5_tick_timer :
    ∀ (b : Bus) (cycles : Nat),
      (b.tac &&& 0x04 = 0 →
        (b.tick_timer cycles).tima = b.tima ∧
        (b.tick_timer cycles).timer_counter = b.timer_counter ∧
        (b.tick_timer cycles).iflag = b.iflag) ∧
      (b.tac &&& 0x04 ≠ 0 → b.tima < 256 → b.tma < 256 →
        (b.tick_timer cycles).timer_counter
            = (b.timer_counter + cycles) % b.timer_freq_divider ∧
        ((b.tick_timer cycles).tima, (b.tick_timer cycles).iflag)
            = specTimaSteps ((b.timer_counter + cycles) / b.timer_freq_divider)
                b.tima b.tma b.iflag) := by
  intro b cycles
  constructor
  · intro h
    unfold Bus.tick_timer
    rw [if_pos (by simp [h])]
    exact ⟨rfl, rfl, rfl⟩
  · intro h htima htma
    have hloop := timerLoop_eq b.timer_freq_divider b.tma
      ((b.timer_counter + cycles) / b.timer_freq_divider) (b.timer_counter + cycles)
      b.tima b.iflag htima htma
    have e : b.tick_timer cycles =
        { b with div := (b.div + cycles * 4 % 65536) % 65536,
                 timer_counter := (timerLoop b.timer_freq_divider b.tma
                   ((b.timer_counter + cycles) / b.timer_freq_divider)
                   (b.timer_counter + cycles) b.tima b.iflag).1,
                 tima := (timerLoop b.timer_freq_divider b.tma
                   ((b.timer_counter + cycles) / b.timer_freq_divider)
                   (b.timer_counter + cycles) b.tima b.iflag).2.1,
                 iflag := (timerLoop b.timer_freq_divider b.tma
                   ((b.timer_counter + cycles) / b.timer_freq_divider)
                   (b.timer_counter + cycles) b.tima b.iflag).2.2 } := by
      unfold Bus.tick_timer
      rw [if_neg (by simp [h])]
      rfl
    rw [e, hloop]
    have hmod := Nat.mod_add_div (b.timer_counter + cycles) b.timer_freq_divider
    have hcomm : ((b.timer_counter + cycles) / b.timer_freq_divider) * b.timer_freq_divider
        = b.timer_freq_divider * ((b.timer_counter + cycles) / b.timer_freq_divider) :=
      Nat.mul_comm _ _
    refine ⟨?_, rfl⟩
    show b.timer_counter + cycles
        - (b.timer_counter + cycles) / b.timer_freq_divider * b.timer_freq_divider
        = (b.timer_counter + cycles) % b.timer_freq_divider
    omega

/-- C5, witness: the characterization at TAC = 0b101 (enabled, period 16),
TIMA = 0xFF, 20 incoming cycles (one increment, which overflows), and the
disabled case on the fresh bus. -/
theorem C5_witness :
    ((timerBus.tick_timer 20).timer_counter = (0 + 20) % timerBus.timer_freq_divider ∧
      ((timerBus.tick_timer 20).tima, (timerBus.tick_timer 20).iflag)
        = specTimaSteps ((0 + 20) / timerBus.timer_freq_divider) 0xFF 0x42 0) ∧
    ((zeroBus.tick_timer 8).tima = zeroBus.tima ∧
      (zeroBus.tick_timer 8).timer_counter = zeroBus.timer_counter ∧
      (zeroBus.tick_timer 8).iflag = zeroBus.iflag) := by
  refine ⟨?_, (C5_tick_timer zeroBus 8).1 (by decide)⟩
  have h := (C5_tick_timer timerBus 20).2 (by decide) (by decide) (by decide)
  exact h

/-! ### Preservation lemmas for the PPU step -/

/-- `render_background` only writes the framebuffer and the mode. -/
theorem render_background_fields (p : Ppu) (vram : Nat → Nat) :
    (p.render_background vram).ly = p.ly ∧
    (p.render_background vram).lyc = p.lyc ∧
    (p.render_background vram).stat = p.stat := by
  unfold Ppu.render_background
  split <;> exact ⟨rfl, rfl, rfl⟩

/-- The scanline loop never writes STAT or LYC. -/
theorem scanLoop_stat_lyc (vram : Nat → Nat) :
    ∀ (n : Nat) (p : Ppu) (vb : Bool),
      (Ppu.scanLoop vram n p vb).1.stat = p.stat ∧
      (Ppu.scanLoop vram n p vb).1.lyc = p.lyc := by
  intro n
  induction n with
  | zero => intro p vb; exact ⟨rfl, rfl⟩
  | succ n ih =>
    intro p vb
    simp only [Ppu.scanLoop]
    split
    · exact ih _ _
    · split
      · refine ⟨?_, ?_⟩
        · rw [(ih _ _).1, (render_background_fields _ _).2.2]
        · rw [(ih _ _).2, (render_background_fields _ _).2.1]
      · exact ih _ _

/-- Each pass of the scanline loop leaves LY at 144, at 0, or at a value
below 154; so LY ≤ 153 is preserved (and established whenever a pass runs). -/
theorem scanLoop_ly_le (vram : Nat → Nat) :
    ∀ (n : Nat) (p : Ppu) (vb : Bool),
      p.ly ≤ 153 → (Ppu.scanLoop vram n p vb).1.ly ≤ 153 := by
  intro n
  induction n with
  | zero => intro p vb h; exact h
  | succ n ih =>
    intro p vb h
    simp only [Ppu.scanLoop]
    split
    · refine ih _ _ ?_
      rename_i hc
      simp at hc ⊢
      omega
    · split
      · refine ih _ _ ?_
        rw [(render_background_fields _ _).1]
        simp
      · rename_i hc1 hc2
        refine ih _ _ ?_
        simp at hc1 hc2 ⊢
        omega

/-- `update_stat` leaves LY unchanged. -/
theorem update_stat_ly (p : Ppu) (vb : Bool) : (p.update_stat vb).1.ly = p.ly := rfl

/-- `update_stat` leaves LYC unchanged. -/
theorem update_stat_lyc (p : Ppu) (vb : Bool) : (p.update_stat vb).1.lyc = p.lyc := rfl

/-- `update_stat` leaves the mode field unchanged. -/
theorem update_stat_mode (p : Ppu) (vb : Bool) : (p.update_stat vb).1.mode = p.mode := rfl

/-- OAM DMA only writes OAM: the PPU and interrupt flags are untouched. -/
theorem dma_fields (b : Bus) (v : Nat) :
    (b.dma v).ppu = b.ppu ∧ (b.dma v).iflag = b.iflag ∧ (b.dma v).ie = b.ie := by
  unfold Bus.dma
  generalize List.range 0xA0 = l
  induction l generalizing b with
  | nil => exact ⟨rfl, rfl, rfl⟩
  | cons i l ih =>
    simp only [List.foldl_cons]
    exact ih _

set_option maxHeartbeats 1000000 in
/-- Effect of `Bus::write8` on LY: only the write to 0xFF44 touches it, and
that write resets LY to 0. -/
theorem write8_ly (b : Bus) (addr v : Nat) :
    (b.write8 addr v).ppu.ly = if addr = 0xFF44 then 0 else b.ppu.ly := by
  unfold Bus.write8
  by_cases c1 : 0x8000 ≤ addr ∧ addr ≤ 0x9FFF
  · rw [if_pos c1]
    rw [if_neg (by omega)]
  · rw [if_neg c1]
    by_cases c2 : 0xC000 ≤ addr ∧ addr ≤ 0xDFFF
    · rw [if_pos c2]
      rw [if_neg (by omega)]
    · rw [if_neg c2]
      by_cases c3 : 0xE000 ≤ addr ∧ addr ≤ 0xFDFF
      · rw [if_pos c3]
        rw [if_neg (by omega)]
      · rw [if_neg c3]
        by_cases c4 : 0xFE00 ≤ addr ∧ addr ≤ 0xFE9F
        · rw [if_pos c4]
          rw [if_neg (by omega)]
        · rw [if_neg c4]
          by_cases c5 : addr = 0xFF00
          · rw [if_pos c5]
            rw [if_neg (by omega)]
          · rw [if_neg c5]
            by_cases c6 : addr = 0xFF40
            · rw [if_pos c6]
              rw [if_neg (by omega)]
            · rw [if_neg c6]
              by_cases c7 : addr = 0xFF41
              · rw [if_pos c7]
                rw [if_neg (by omega)]
              · rw [if_neg c7]
                by_cases c8 : addr = 0xFF42
                · rw [if_pos c8]
                  rw [if_neg (by omega)]
                · rw [if_neg c8]
                  by_cases c9 : addr = 0xFF43
                  · rw [if_pos c9]
                    rw [if_neg (by omega)]
                  · rw [if_neg c9]
                    by_cases c10 : addr = 0xFF44
                    · rw [if_pos c10]
                      rw [if_pos c10]
                    · rw [if_neg c10]
                      by_cases c11 : addr = 0xFF45
                      · rw [if_pos c11]
                        rw [if_neg (by omega)]
                      · rw [if_neg c11]
                        by_cases c12 : addr = 0xFF47
                        · rw [if_pos c12]
                          rw [if_neg (by omega)]
                        · rw [if_neg c12]
                          by_cases c13 : addr = 0xFF4A
                          · rw [if_pos c13]
                            rw [if_neg (by omega)]
                          · rw [if_neg c13]
                            by_cases c14 : addr = 0xFF4B
                            · rw [if_pos c14]
                              rw [if_neg (by omega)]
                            · rw [if_neg c14]
                              by_cases c15 : addr = 0xFF04
                              · rw [if_pos c15]
                                rw [if_neg (by omega)]
                              · rw [if_neg c15]
                                by_cases c16 : addr = 0xFF05
                                · rw [if_pos c16]
                                  rw [if_neg (by omega)]
                                · rw [if_neg c16]
                                  by_cases c17 : addr = 0xFF06
                                  · rw [if_pos c17]
                                    rw [if_neg (by omega)]
                                  · rw [if_neg c17]
                                    by_cases c18 : addr = 0xFF07
                                    · rw [if_pos c18]
                                      rw [if_neg (by omega)]
                                    · rw [if_neg c18]
                                      by_cases c19 : 0xFF80 ≤ addr ∧ addr ≤ 0xFFFE
                                      · rw [if_pos c19]
                                        rw [if_neg (by omega)]
                                      · rw [if_neg c19]
                                        by_cases c20 : addr = 0xFF0F
                                        · rw [if_pos c20]
                                          rw [if_neg (by omega)]
                                        · rw [if_neg c20]
                                          by_cases c21 : addr = 0xFFFF
                                          · rw [if_pos c21]
                                            rw [if_neg (by omega)]
                                          · rw [if_neg c21]
                                            by_cases c22 : addr = 0xFF46
                                            · rw [if_pos c22]
                                              rw [if_neg (by omega)]
                                              exact congrArg Ppu.ly (dma_fields b v).1
                                            · rw [if_neg c22]
                                              rw [if_neg (by omega)]

set_option maxHeartbeats 1000000 in
/-- Effect of `Bus::write8` on the interrupt flags: only the write to 0xFF0F
touches them. -/
theorem write8_iflag (b : Bus) (addr v : Nat) :
    (b.write8 addr v).iflag = if addr = 0xFF0F then v else b.iflag := by
  unfold Bus.write8
  by_cases c1 : 0x8000 ≤ addr ∧ addr ≤ 0x9FFF
  · rw [if_pos c1]
    rw [if_neg (by omega)]
  · rw [if_neg c1]
    by_cases c2 : 0xC000 ≤ addr ∧ addr ≤ 0xDFFF
    · rw [if_pos c2]
      rw [if_neg (by omega)]
    · rw [if_neg c2]
      by_cases c3 : 0xE000 ≤ addr ∧ addr ≤ 0xFDFF
      · rw [if_pos c3]
        rw [if_neg (by omega)]
      · rw [if_neg c3]
        by_cases c4 : 0xFE00 ≤ addr ∧ addr ≤ 0xFE9F
        · rw [if_pos c4]
          rw [if_neg (by omega)]
        · rw [if_neg c4]
          by_cases c5 : addr = 0xFF00
          · rw [if_pos c5]
            rw [if_neg (by omega)]
          · rw [if_neg c5]
            by_cases c6 : addr = 0xFF40
            · rw [if_pos c6]
              rw [if_neg (by omega)]
            · rw [if_neg c6]
              by_cases c7 : addr = 0xFF41
              · rw [if_pos c7]
                rw [if_neg (by omega)]
              · rw [if_neg c7]
                by_cases c8 : addr = 0xFF42
                · rw [if_pos c8]
                  rw [if_neg (by omega)]
                · rw [if_neg c8]
                  by_cases c9 : addr = 0xFF43
                  · rw [if_pos c9]
                    rw [if_neg (by omega)]
                  · rw [if_neg c9]
                    by_cases c10 : addr = 0xFF44
                    · rw [if_pos c10]
                      rw [if_neg (by omega)]
                    · rw [if_neg c10]
                      by_cases c11 : addr = 0xFF45
                      · rw [if_pos c11]
                        rw [if_neg (by omega)]
                      · rw [if_neg c11]
                        by_cases c12 : addr = 0xFF47
                        · rw [if_pos c12]
                          rw [if_neg (by omega)]
                        · rw [if_neg c12]
                          by_cases c13 : addr = 0xFF4A
                          · rw [if_pos c13]
                            rw [if_neg (by omega)]
                          · rw [if_neg c13]
                            by_cases c14 : addr = 0xFF4B
                            · rw [if_pos c14]
                              rw [if_neg (by omega)]
                            · rw [if_neg c14]
                              by_cases c15 : addr = 0xFF04
                              · rw [if_pos c15]
                                rw [if_neg (by omega)]
                              · rw [if_neg c15]
                                by_cases c16 : addr = 0xFF05
                                · rw [if_pos c16]
                                  rw [if_neg (by omega)]
                                · rw [if_neg c16]
                                  by_cases c17 : addr = 0xFF06
                                  · rw [if_pos c17]
                                    rw [if_neg (by omega)]
                                  · rw [if_neg c17]
                                    by_cases c18 : addr = 0xFF07
                                    · rw [if_pos c18]
                                      rw [if_neg (by omega)]
                                    · rw [if_neg c18]
                                      by_cases c19 : 0xFF80 ≤ addr ∧ addr ≤ 0xFFFE
                                      · rw [if_pos c19]
                                        rw [if_neg (by omega)]
                                      · rw [if_neg c19]
                                        by_cases c20 : addr = 0xFF0F
                                        · rw [if_pos c20]
                                          rw [if_pos c20]
                                        · rw [if_neg c20]
                                          by_cases c21 : addr = 0xFFFF
                                          · rw [if_pos c21]
                                            rw [if_neg (by omega)]
                                          · rw [if_neg c21]
                                            by_cases c22 : addr = 0xFF46
                                            · rw [if_pos c22]
                                              rw [if_neg (by omega)]
                                              exact (dma_fields b v).2.1
                                            · rw [if_neg c22]
                                              rw [if_neg (by omega)]

/-! ### C6 -/

/-- C6: LY stays in [0, 153]: it starts at 0, every PPU step preserves the
bound (the scanline loop wraps LY to 0 once it reaches 154, and the
LCD-disabled path forces it to 0), the only bus write that touches LY is the
one to 0xFF44, and that write resets LY to 0. -/
theorem C6_ly_in_range :
    Ppu.new.ly ≤ 153 ∧
    (∀ (p : Ppu) (cycles : Nat) (vram : Nat → Nat),
      p.ly ≤ 153 → (p.step cycles vram).1.ly ≤ 153) ∧
    (∀ (b : Bus) (v : Nat), (b.write8 0xFF44 v).ppu.ly = 0) ∧
    (∀ (b : Bus) (addr v : Nat), addr ≠ 0xFF44 → (b.write8 addr v).ppu.ly = b.ppu.ly) := by
  refine ⟨by decide, ?_, ?_, ?_⟩
  · intro p cycles vram h
    unfold Ppu.step
    split
    · simp [update_stat_ly]
    · have hs := scanLoop_ly_le vram
        ((p.cycle_acc + cycles) / 456) { p with cycle_acc := p.cycle_acc + cycles } false h
      simpa [update_stat_ly] using hs
  · intro b v
    rw [write8_ly, if_pos rfl]
  · intro b addr v h
    rw [write8_ly, if_neg h]

/-- C6, witness: the bound at the freshly constructed PPU stepped by 4 cycles,
and the LY write behavior on the fresh bus. -/
theorem C6_witness :
    Ppu.new.ly ≤ 153 ∧
    (Ppu.new.step 4 (fun _ => 0)).1.ly ≤ 153 ∧
    (zeroBus.write8 0xFF44 7).ppu.ly = 0 ∧
    (zeroBus.write8 0xFF45 7).ppu.ly = zeroBus.ppu.ly := by
  obtain ⟨h1, h2, h3, h4⟩ := C6_ly_in_range
  exact ⟨h1, h2 Ppu.new 4 (fun _ => 0) (by decide), h3 zeroBus 7, h4 zeroBus 0xFF45 7 (by decide)⟩

/-! ### STAT bit lemmas (C1 and C4) -/

set_option maxRecDepth 2048 in
/-- Bit arithmetic of the STAT update, checked for every byte `s`, mode
`m < 4` and flag combination: bit 2 of the result records the match flag, and
bits 0-1 are the mode, possibly with bit 0 forced by the `vblank` argument. -/
theorem stat_bits_aux :
    ∀ s < 256, ∀ m < 4, ∀ (mt vb : Bool),
      ((if vb then (((if mt then s ||| 4 else s &&& 0xFB) &&& 0xFC) ||| (m &&& 3)) ||| 1
          else ((if mt then s ||| 4 else s &&& 0xFB) &&& 0xFC) ||| (m &&& 3)) / 4 % 2
        = if mt then 1 else 0) ∧
      ((if vb then (((if mt then s ||| 4 else s &&& 0xFB) &&& 0xFC) ||| (m &&& 3)) ||| 1
          else (((if mt then s ||| 4 else s &&& 0xFB) &&& 0xFC) ||| (m &&& 3))) % 4 = m ∨
       (if vb then (((if mt then s ||| 4 else s &&& 0xFB) &&& 0xFC) ||| (m &&& 3)) ||| 1
          else (((if mt then s ||| 4 else s &&& 0xFB) &&& 0xFC) ||| (m &&& 3))) % 4 = m ||| 1) := by
  decide

set_option maxRecDepth 2048 in
/-- `update_stat` leaves STAT bit 6 of the intermediate value set whenever the
input STAT had it set (checked bytewise). -/
theorem stat_bit6_aux :
    ∀ s < 256, ∀ m < 4, s &&& 0x40 ≠ 0 →
      (((((s ||| 4) &&& 0xFC) ||| (m &&& 3)) &&& 0x40) != 0) = true := by
  decide

/-- After `update_stat`, STAT bit 2 records LY = LYC and bits 0-1 are the
mode, except that bit 0 may additionally be set by the `vblank` argument. -/
theorem update_stat_bits (p : Ppu) (vb : Bool) (hs : p.stat < 256) (hm : p.mode < 4) :
    ((p.update_stat vb).1.stat / 4 % 2 = if p.ly = p.lyc then 1 else 0) ∧
    ((p.update_stat vb).1.stat % 4 = p.mode ∨
     (p.update_stat vb).1.stat % 4 = p.mode ||| 1) := by
  have haux := stat_bits_aux p.stat hs p.mode hm (p.ly == p.lyc) vb
  by_cases hly : p.ly = p.lyc
  · simp only [Ppu.update_stat, hly, beq_self_eq_true, if_true] at haux ⊢
    simpa [hly] using haux
  · have hbeq : (p.ly == p.lyc) = false := by simp [hly]
    simp only [Ppu.update_stat, hbeq, if_false, Bool.false_eq_true] at haux ⊢
    simpa [hly] using haux

/-- When LY = LYC and STAT bit 6 is set, `update_stat` reports an interrupt
(regardless of its `vblank` argument): the condition is level-sensitive. -/
theorem update_stat_irq_of_lyc (p : Ppu) (vb : Bool) (hs : p.stat < 256) (hm : p.mode < 4)
    (h6 : p.stat &&& 0x40 ≠ 0) (hly : p.ly = p.lyc) :
    (p.update_stat vb).2 = true := by
  have haux := stat_bit6_aux p.stat hs p.mode hm h6
  simp only [Ppu.update_stat, hly, beq_self_eq_true, if_true, Bool.true_and]
  simp [haux]

/-- C1, amended: after every PPU step with the LCD enabled, STAT bit 2 equals
(LY = LYC); STAT bits 0-1 equal the mode except that bit 0 is additionally
set on steps that entered VBlank or changed mode, so bits 0-1 read either the
mode or the mode with bit 0 forced. -/
theorem C1_stat_mode_lyc :
    ∀ (p : Ppu) (cycles : Nat) (vram : Nat → Nat),
      p.lcdc &&& 0x80 ≠ 0 → p.stat < 256 →
      ((p.step cycles vram).1.stat / 4 % 2
          = if (p.step cycles vram).1.ly = (p.step cycles vram).1.lyc then 1 else 0) ∧
      ((p.step cycles vram).1.stat % 4 = (p.step cycles vram).1.mode ∨
       (p.step cycles vram).1.stat % 4 = (p.step cycles vram).1.mode ||| 1) := by
  intro p cycles vram hl hs
  unfold Ppu.step
  rw [if_neg (by simp [hl])]
  simp only [update_stat_ly, update_stat_lyc, update_stat_mode]
  apply update_stat_bits
  · rw [(scanLoop_stat_lyc vram _ _ _).1]
    exact hs
  · split_ifs <;> norm_num

/-- C1, witness: the amended bit relations at the fresh PPU stepped 4 cycles. -/
theorem C1_witness :
    ((Ppu.new.step 4 (fun _ => 0)).1.stat / 4 % 2
        = if (Ppu.new.step 4 (fun _ => 0)).1.ly = (Ppu.new.step 4 (fun _ => 0)).1.lyc
          then 1 else 0) ∧
    ((Ppu.new.step 4 (fun _ => 0)).1.stat % 4 = (Ppu.new.step 4 (fun _ => 0)).1.mode ∨
     (Ppu.new.step 4 (fun _ => 0)).1.stat % 4 = (Ppu.new.step 4 (fun _ => 0)).1.mode ||| 1) :=
  C1_stat_mode_lyc Ppu.new 4 (fun _ => 0) (by decide) (by decide)

/-- The timer loop only ever ORs bit 2 into iflag, so bit 1 is untouched. -/
theorem timerLoop_iflag_testBit1 (period tma : Nat) :
    ∀ (n counter tima iflag : Nat),
      ((timerLoop period tma n counter tima iflag).2.2).testBit 1 = iflag.testBit 1 := by
  intro n
  induction n with
  | zero => intro counter tima iflag; rfl
  | succ n ih =>
    intro counter tima iflag
    simp only [timerLoop, timaStep]
    split
    · rw [ih]
      simp [Nat.testBit_or, show Nat.testBit 4 1 = false by decide]
    · rw [ih]

/-- `tick_timer` never touches iflag bit 1 (the STAT interrupt). -/
theorem tick_timer_iflag_testBit1 (b : Bus) (cycles : Nat) :
    (b.tick_timer cycles).iflag.testBit 1 = b.iflag.testBit 1 := by
  simp only [Bus.tick_timer]
  split
  · rfl
  · exact timerLoop_iflag_testBit1 _ _ _ _ _ _

/-- With the LCD on, no scanline boundary crossed, LY = LYC and STAT bit 6
set, `Ppu::step` reports a STAT interrupt (and no VBlank). -/
theorem ppu_step_lyc_irq (p : Ppu) (cycles : Nat) (vram : Nat → Nat)
    (hl : p.lcdc &&& 0x80 ≠ 0) (hs : p.stat < 256) (h6 : p.stat &&& 0x40 ≠ 0)
    (hly : p.ly = p.lyc) (hacc : p.cycle_acc + cycles < 456) :
    (p.step cycles vram).2.1 = false ∧ (p.step cycles vram).2.2 = true := by
  unfold Ppu.step
  rw [if_neg (by simp [hl])]
  have hdiv : (p.cycle_acc + cycles) / 456 = 0 := Nat.div_eq_of_lt hacc
  simp only [hdiv, Ppu.scanLoop]
  refine ⟨trivial, ?_⟩
  apply update_stat_irq_of_lyc
  · exact hs
  · split_ifs <;> norm_num
  · exact h6
  · exact hly

/-- C4, amended: the STAT interrupt is level-triggered, not edge-triggered:
whenever LY equals LYC with STAT bit 6 set and the LCD on, every `bus.step`
that stays within the current scanline raises iflag bit 1 — the step right
after the transition and every later step while the match holds. -/
theorem C4_stat_level_triggered :
    ∀ (b : Bus) (cycles : Nat),
      b.ppu.lcdc &&& 0x80 ≠ 0 → b.ppu.stat < 256 → b.ppu.stat &&& 0x40 ≠ 0 →
      b.ppu.ly = b.ppu.lyc → b.ppu.cycle_acc + cycles < 456 →
      (Bus.step b cycles).iflag.testBit 1 = true := by
  intro b cycles hl hs h6 hly hacc
  have hstep := ppu_step_lyc_irq b.ppu cycles b.vram hl hs h6 hly hacc
  unfold Bus.step
  rw [tick_timer_iflag_testBit1]
  simp only [hstep.1, hstep.2, if_false, if_true, Bool.false_eq_true]
  simp [Nat.testBit_or, show Nat.testBit 2 1 = true by decide]

/-- C4, witness: iflag bit 1 is raised at the concrete matching bus. -/
theorem C4_witness : (Bus.step lycBus 4).iflag.testBit 1 = true :=
  C4_stat_level_triggered lycBus 4 (by decide) (by decide) (by decide) (by decide) (by decide)


/-! ### RAM-backed addresses and read-after-write lemmas (C7) -/

/-- Addresses whose writes land in RAM the same read decodes to: VRAM, WRAM,
echo RAM, OAM, or HRAM. -/
def ramAddr (a : Nat) : Prop :=
  (0x8000 ≤ a ∧ a ≤ 0x9FFF) ∨ (0xC000 ≤ a ∧ a ≤ 0xDFFF) ∨
  (0xE000 ≤ a ∧ a ≤ 0xFDFF) ∨ (0xFE00 ≤ a ∧ a ≤ 0xFE9F) ∨
  (0xFF80 ≤ a ∧ a ≤ 0xFFFE)

instance : DecidablePred ramAddr := fun a => by unfold ramAddr; infer_instance

/-- `Bus::write8` on a VRAM address. -/
theorem write8_vram (b : Bus) (addr v : Nat) (h : 0x8000 ≤ addr ∧ addr ≤ 0x9FFF) :
    b.write8 addr v = { b with vram := fun i => if i == addr - 0x8000 then v else b.vram i } := by
  unfold Bus.write8
  rw [if_pos h]

/-- `Bus::write8` on a WRAM address. -/
theorem write8_wram (b : Bus) (addr v : Nat) (h : 0xC000 ≤ addr ∧ addr ≤ 0xDFFF) :
    b.write8 addr v = { b with wram := fun i => if i == addr - 0xC000 then v else b.wram i } := by
  unfold Bus.write8
  rw [if_neg (by omega), if_pos h]

/-- `Bus::write8` on a ECHO address. -/
theorem write8_echo (b : Bus) (addr v : Nat) (h : 0xE000 ≤ addr ∧ addr ≤ 0xFDFF) :
    b.write8 addr v = { b with wram := fun i => if i == addr - 0xE000 then v else b.wram i } := by
  unfold Bus.write8
  rw [if_neg (by omega), if_neg (by omega), if_pos h]

/-- `Bus::write8` on a OAM address. -/
theorem write8_oam (b : Bus) (addr v : Nat) (h : 0xFE00 ≤ addr ∧ addr ≤ 0xFE9F) :
    b.write8 addr v = { b with oam := fun i => if i == addr - 0xFE00 then v else b.oam i } := by
  unfold Bus.write8
  rw [if_neg (by omega), if_neg (by intro hx; omega), if_neg (by omega), if_pos h]

/-- `Bus::write8` on a HRAM address. -/
theorem write8_hram (b : Bus) (addr v : Nat) (h : 0xFF80 ≤ addr ∧ addr ≤ 0xFFFE) :
    b.write8 addr v = { b with hram := fun i => if i == addr - 0xFF80 then v else b.hram i } := by
  unfold Bus.write8
  rw [if_neg (by omega), if_neg (by intro hx; omega), if_neg (by omega), if_neg (by intro hx; omega), if_neg (by omega), if_neg (by intro hx; omega), if_neg (by omega), if_neg (by intro hx; omega), if_neg (by omega), if_neg (by intro hx; omega), if_neg (by omega), if_neg (by intro hx; omega), if_neg (by omega), if_neg (by intro hx; omega), if_neg (by omega), if_neg (by intro hx; omega), if_neg (by omega), if_neg (by intro hx; omega), if_pos h]

/-- `Bus::read8` on a VRAM address. -/
theorem read8_vram (b : Bus) (addr : Nat) (h : 0x8000 ≤ addr ∧ addr ≤ 0x9FFF) :
    b.read8 addr = b.vram (addr - 0x8000) := by
  unfold Bus.read8
  rw [if_neg (by omega), if_pos h]

/-- `Bus::read8` on a WRAM address. -/
theorem read8_wram (b : Bus) (addr : Nat) (h : 0xC000 ≤ addr ∧ addr ≤ 0xDFFF) :
    b.read8 addr = b.wram (addr - 0xC000) := by
  unfold Bus.read8
  rw [if_neg (by omega), if_neg (by omega), if_pos h]

/-- `Bus::read8` on a ECHO address. -/
theorem read8_echo (b : Bus) (addr : Nat) (h : 0xE000 ≤ addr ∧ addr ≤ 0xFDFF) :
    b.read8 addr = b.wram (addr - 0xE000) := by
  unfold Bus.read8
  rw [if_neg (by omega), if_neg (by intro hx; omega), if_neg (by omega), if_pos h]

/-- `Bus::read8` on a OAM address. -/
theorem read8_oam (b : Bus) (addr : Nat) (h : 0xFE00 ≤ addr ∧ addr ≤ 0xFE9F) :
    b.read8 addr = b.oam (addr - 0xFE00) := by
  unfold Bus.read8
  rw [if_neg (by omega), if_neg (by intro hx; omega), if_neg (by omega), if_neg (by intro hx; omega), if_pos h]

/-- `Bus::read8` on a HRAM address. -/
theorem read8_hram (b : Bus) (addr : Nat) (h : 0xFF80 ≤ addr ∧ addr ≤ 0xFFFE) :
    b.read8 addr = b.hram (addr - 0xFF80) := by
  unfold Bus.read8
  rw [if_neg (by omega), if_neg (by intro hx; omega), if_neg (by omega), if_neg (by intro hx; omega), if_neg (by omega), if_neg (by intro hx; omega), if_neg (by omega), if_neg (by intro hx; omega), if_neg (by omega), if_neg (by intro hx; omega), if_neg (by omega), if_neg (by intro hx; omega), if_neg (by omega), if_neg (by intro hx; omega), if_neg (by omega), if_neg (by intro hx; omega), if_neg (by omega), if_neg (by intro hx; omega), if_neg (by omega), if_pos h]

set_option maxRecDepth 8192 in
/-- Read-after-write at a RAM-backed address returns the written byte. -/
theorem read8_write8_same (b : Bus) (a v : Nat) (h : ramAddr a) :
    (b.write8 a v).read8 a = v := by
  rcases h with h | h | h | h | h
  · rw [write8_vram b a v h, read8_vram _ a h]
    simp
  · rw [write8_wram b a v h, read8_wram _ a h]
    simp
  · rw [write8_echo b a v h, read8_echo _ a h]
    simp
  · rw [write8_oam b a v h, read8_oam _ a h]
    simp
  · rw [write8_hram b a v h, read8_hram _ a h]
    simp

set_option maxRecDepth 8192 in
/-- Writing one RAM-backed address does not disturb a read of the next one
(the only aliasing candidates, WRAM and its echo, sit 0x2000 apart). -/
theorem read8_write8_ne (b : Bus) (a1 a2 v : Nat) (h1 : ramAddr a1) (h2 : ramAddr a2)
    (hadj : a1 = a2 + 1) : (b.write8 a2 v).read8 a1 = b.read8 a1 := by
  rcases h1 with h1 | h1 | h1 | h1 | h1 <;> rcases h2 with h2 | h2 | h2 | h2 | h2
  all_goals (first
    | rw [write8_vram b a2 v h2]
    | rw [write8_wram b a2 v h2]
    | rw [write8_echo b a2 v h2]
    | rw [write8_oam b a2 v h2]
    | rw [write8_hram b a2 v h2])
  all_goals (first
    | rw [read8_vram _ a1 h1, read8_vram b a1 h1]
    | rw [read8_wram _ a1 h1, read8_wram b a1 h1]
    | rw [read8_echo _ a1 h1, read8_echo b a1 h1]
    | rw [read8_oam _ a1 h1, read8_oam b a1 h1]
    | rw [read8_hram _ a1 h1, read8_hram b a1 h1])
  all_goals (simp; omega)

/-! ### Byte packing lemmas (C7) -/

/-- Packing a high byte over a low byte is plain arithmetic. -/
theorem byte_pack (B C : Nat) (hC : C < 256) : (B <<< 8) ||| C = B * 256 + C := by
  have hC2 : C < 2 ^ 8 := hC
  have h := (Nat.mul_add_lt_is_or hC2 B).symm
  rw [Nat.shiftLeft_eq, Nat.mul_comm B (2 ^ 8), h]

/-- The high byte of a packed word. -/
theorem byte_unpack_hi (B C : Nat) (hB : B < 256) (hC : C < 256) :
    (((B <<< 8) ||| C) >>> 8) % 256 = B := by
  rw [byte_pack B C hC, Nat.shiftRight_eq_div_pow]
  norm_num
  omega

/-- The low byte of a packed word. -/
theorem byte_unpack_lo (B C : Nat) (hC : C < 256) : ((B <<< 8) ||| C) % 256 = C := by
  rw [byte_pack B C hC]
  omega

/-- A packed word is a 16-bit value. -/
theorem byte_pack_lt (B C : Nat) (hB : B < 256) (hC : C < 256) :
    (B <<< 8) ||| C < 65536 := by
  rw [byte_pack B C hC]
  omega

/-- `x & 0xFF` is `x mod 256`. -/
theorem byte_and_ff (x : Nat) : x &&& 0xFF = x % 256 := by
  have h := Nat.and_pow_two_sub_one_eq_mod x 8
  norm_num at h
  exact h

/-- Masking a packed word with a byte-sized mask sees only the low byte. -/
theorem pack_and_mask (a t m : Nat) (ht : t < 256) (hm : m < 256) :
    ((a <<< 8) ||| t) &&& m = t &&& m := by
  rw [byte_pack a t ht]
  apply Nat.eq_of_testBit_eq
  intro i
  rw [Nat.testBit_and, Nat.testBit_and]
  by_cases hi : i < 8
  · have ht2 : t < 2 ^ 8 := ht
    have h := Nat.testBit_mul_pow_two_add a ht2 i
    rw [if_pos hi] at h
    rw [show a * 256 + t = 2 ^ 8 * a + t by ring, h]
  · have hle : (2:Nat) ^ 8 ≤ 2 ^ i := Nat.pow_le_pow_right (by norm_num) (by omega)
    have hm8 : m < 2 ^ i :=
      lt_of_lt_of_le hm (le_trans (by norm_num : (256:Nat) ≤ 2 ^ 8) hle)
    rw [Nat.testBit_lt_two_pow hm8]
    simp

/-- The four flags survive a pack / mask / unpack round trip, and the packed
flag byte always has a zero low nibble. -/
theorem flags_roundtrip (f : Flags) :
    Flags.from_byte f.to_byte = f ∧ f.to_byte &&& 0xF0 = f.to_byte ∧
    f.to_byte &&& 0x0F = 0 ∧ f.to_byte < 256 := by
  obtain ⟨fz, fn, fh, fc⟩ := f
  cases fz <;> cases fn <;> cases fh <;> cases fc <;> decide

set_option maxRecDepth 8192 in
/-- `push16` then `pop16` returns the pushed 16-bit word and restores SP,
provided the two stack bytes land at RAM-backed addresses. -/
theorem push16_pop16 (s : Cpu) (b : Bus) (v : Nat) (hv : v < 65536) (hsp : s.sp < 65536)
    (h1 : ramAddr ((s.sp + 65535) % 65536)) (h2 : ramAddr ((s.sp + 65534) % 65536)) :
    ((s.push16 b v).1.pop16 (s.push16 b v).2).1 = v ∧
    ((s.push16 b v).1.pop16 (s.push16 b v).2).2.sp = s.sp := by
  have hb1 : 0x8000 ≤ (s.sp + 65535) % 65536 ∧ (s.sp + 65535) % 65536 ≤ 0xFFFE := by
    unfold ramAddr at h1; omega
  have hb2 : 0x8000 ≤ (s.sp + 65534) % 65536 ∧ (s.sp + 65534) % 65536 ≤ 0xFFFE := by
    unfold ramAddr at h2; omega
  have hsp2eq : ((s.sp + 65535) % 65536 + 65535) % 65536 = (s.sp + 65534) % 65536 := by
    omega
  have h2x : ramAddr (((s.sp + 65535) % 65536 + 65535) % 65536) := by
    rw [hsp2eq]; exact h2
  have ha21 : (((s.sp + 65535) % 65536 + 65535) % 65536 + 1) % 65536
      = (s.sp + 65535) % 65536 := by omega
  have hadj : (s.sp + 65535) % 65536 = ((s.sp + 65535) % 65536 + 65535) % 65536 + 1 := by
    omega
  have hlo : (((b.write8 ((s.sp + 65535) % 65536) ((v >>> 8) % 256)).write8
        (((s.sp + 65535) % 65536 + 65535) % 65536) (v &&& 0xFF)).read8
        (((s.sp + 65535) % 65536 + 65535) % 65536)) = v &&& 0xFF :=
    read8_write8_same _ _ _ h2x
  have hhi : (((b.write8 ((s.sp + 65535) % 65536) ((v >>> 8) % 256)).write8
        (((s.sp + 65535) % 65536 + 65535) % 65536) (v &&& 0xFF)).read8
        ((s.sp + 65535) % 65536)) = (v >>> 8) % 256 := by
    rw [read8_write8_ne _ _ _ _ h1 h2x hadj]
    exact read8_write8_same _ _ _ h1
  have hp : s.push16 b v
      = ({ s with sp := ((s.sp + 65535) % 65536 + 65535) % 65536 },
         (b.write8 ((s.sp + 65535) % 65536) ((v >>> 8) % 256)).write8
           (((s.sp + 65535) % 65536 + 65535) % 65536) (v &&& 0xFF)) := rfl
  have hq : Cpu.pop16 { s with sp := ((s.sp + 65535) % 65536 + 65535) % 65536 }
        ((b.write8 ((s.sp + 65535) % 65536) ((v >>> 8) % 256)).write8
          (((s.sp + 65535) % 65536 + 65535) % 65536) (v &&& 0xFF))
      = ((((b.write8 ((s.sp + 65535) % 65536) ((v >>> 8) % 256)).write8
            (((s.sp + 65535) % 65536 + 65535) % 65536) (v &&& 0xFF)).read8
            ((((s.sp + 65535) % 65536 + 65535) % 65536 + 1) % 65536) <<< 8) |||
          ((b.write8 ((s.sp + 65535) % 65536) ((v >>> 8) % 256)).write8
            (((s.sp + 65535) % 65536 + 65535) % 65536) (v &&& 0xFF)).read8
            (((s.sp + 65535) % 65536 + 65535) % 65536),
         { s with sp := ((((s.sp + 65535) % 65536 + 65535) % 65536 + 1) % 65536 + 1) % 65536 }) :=
    rfl
  rw [hp, hq]
  constructor
  · show ((((b.write8 ((s.sp + 65535) % 65536) ((v >>> 8) % 256)).write8
        (((s.sp + 65535) % 65536 + 65535) % 65536) (v &&& 0xFF)).read8
        ((((s.sp + 65535) % 65536 + 65535) % 65536 + 1) % 65536)) <<< 8) |||
      (((b.write8 ((s.sp + 65535) % 65536) ((v >>> 8) % 256)).write8
        (((s.sp + 65535) % 65536 + 65535) % 65536) (v &&& 0xFF)).read8
        (((s.sp + 65535) % 65536 + 65535) % 65536)) = v
    rw [ha21, hhi, hlo, byte_and_ff, Nat.shiftRight_eq_div_pow]
    norm_num
    have hd : v / 256 % 256 = v / 256 := by omega
    rw [hd, byte_pack _ _ (by omega)]
    omega
  · show ((((s.sp + 65535) % 65536 + 65535) % 65536 + 1) % 65536 + 1) % 65536 = s.sp
    omega


/-- Projection of `set_bc`. -/
theorem set_bc_bc (c : Cpu) (v : Nat) :
    (c.set_bc v).bc = (((v >>> 8) % 256) <<< 8) ||| (v % 256) := rfl

/-- `set_bc` leaves SP unchanged. -/
theorem set_bc_sp (c : Cpu) (v : Nat) : (c.set_bc v).sp = c.sp := rfl

/-- Projection of `set_de`. -/
theorem set_de_de (c : Cpu) (v : Nat) :
    (c.set_de v).de = (((v >>> 8) % 256) <<< 8) ||| (v % 256) := rfl

/-- `set_de` leaves SP unchanged. -/
theorem set_de_sp (c : Cpu) (v : Nat) : (c.set_de v).sp = c.sp := rfl

/-- Projection of `set_hl`. -/
theorem set_hl_hl (c : Cpu) (v : Nat) :
    (c.set_hl v).hl = (((v >>> 8) % 256) <<< 8) ||| (v % 256) := rfl

/-- `set_hl` leaves SP unchanged. -/
theorem set_hl_sp (c : Cpu) (v : Nat) : (c.set_hl v).sp = c.sp := rfl

/-- A 16-bit round trip through split-and-repack. -/
theorem repack_eq (B C : Nat) (hB : B < 256) (hC : C < 256) :
    (((((B <<< 8) ||| C) >>> 8) % 256) <<< 8) ||| (((B <<< 8) ||| C) % 256)
      = (B <<< 8) ||| C := by
  rw [byte_unpack_hi B C hB hC, byte_unpack_lo B C hC]

set_option maxRecDepth 8192 in
/-- C7, amended: executing PUSH rr then POP rr restores the 16-bit pair and
SP for rr ∈ {BC, DE, HL, AF} — provided the two stack bytes land at
RAM-backed addresses (writes into ROM or I/O space are dropped or remapped by
the bus, so the unrestricted claim fails) — and the popped F always has a
zero low nibble. -/
theorem C7_push_pop :
    ∀ (s : Cpu) (b : Bus),
      s.sp < 65536 → s.a < 256 → s.b < 256 → s.c < 256 → s.d < 256 → s.e < 256 →
      s.h < 256 → s.l < 256 →
      ramAddr ((s.sp + 65535) % 65536) → ramAddr ((s.sp + 65534) % 65536) →
      (pushPopCpu 0xC5 0xC1 s b).map (fun c => (c.bc, c.sp)) = some (s.bc, s.sp) ∧
      (pushPopCpu 0xD5 0xD1 s b).map (fun c => (c.de, c.sp)) = some (s.de, s.sp) ∧
      (pushPopCpu 0xE5 0xE1 s b).map (fun c => (c.hl, c.sp)) = some (s.hl, s.sp) ∧
      (pushPopCpu 0xF5 0xF1 s b).map (fun c => (c.a, c.f, c.sp)) = some (s.a, s.f, s.sp) ∧
      (pushPopCpu 0xF5 0xF1 s b).map (fun c => c.f.to_byte &&& 0x0F) = some 0 := by
  intro s b hsp ha hb hc hd he hh hl8 h1 h2
  have htb := flags_roundtrip s.f
  have hsbc : s.bc < 65536 := byte_pack_lt s.b s.c hb hc
  have hsde : s.de < 65536 := byte_pack_lt s.d s.e hd he
  have hshl : s.hl < 65536 := byte_pack_lt s.h s.l hh hl8
  have hsaf : ((s.a <<< 8) ||| s.f.to_byte) < 65536 :=
    byte_pack_lt s.a s.f.to_byte ha htb.2.2.2
  have rbc := push16_pop16 s b s.bc hsbc hsp h1 h2
  have rde := push16_pop16 s b s.de hsde hsp h1 h2
  have rhl := push16_pop16 s b s.hl hshl hsp h1 h2
  have raf := push16_pop16 s b ((s.a <<< 8) ||| s.f.to_byte) hsaf hsp h1 h2
  have eC5 : Cpu.exec 0xC5 s b
      = .ok (s.push16 b s.bc).1 (s.push16 b s.bc).2 16 := rfl
  have eC1 : ∀ (c : Cpu) (bb : Bus),
      Cpu.exec 0xC1 c bb = .ok ((c.pop16 bb).2.set_bc (c.pop16 bb).1) bb 12 :=
    fun _ _ => rfl
  have eD5 : Cpu.exec 0xD5 s b
      = .ok (s.push16 b s.de).1 (s.push16 b s.de).2 16 := rfl
  have eD1 : ∀ (c : Cpu) (bb : Bus),
      Cpu.exec 0xD1 c bb = .ok ((c.pop16 bb).2.set_de (c.pop16 bb).1) bb 12 :=
    fun _ _ => rfl
  have eE5 : Cpu.exec 0xE5 s b
      = .ok (s.push16 b s.hl).1 (s.push16 b s.hl).2 16 := rfl
  have eE1 : ∀ (c : Cpu) (bb : Bus),
      Cpu.exec 0xE1 c bb = .ok ((c.pop16 bb).2.set_hl (c.pop16 bb).1) bb 12 :=
    fun _ _ => rfl
  have eF5 : Cpu.exec 0xF5 s b
      = .ok (s.push16 b ((s.a <<< 8) ||| s.f.to_byte)).1
          (s.push16 b ((s.a <<< 8) ||| s.f.to_byte)).2 16 := rfl
  have eF1 : ∀ (c : Cpu) (bb : Bus),
      Cpu.exec 0xF1 c bb
        = .ok { (c.pop16 bb).2 with
                a := ((c.pop16 bb).1 >>> 8) % 256,
                f := Flags.from_byte ((c.pop16 bb).1 &&& 0xF0) } bb 12 :=
    fun _ _ => rfl
  refine ⟨?_, ?_, ?_, ?_, ?_⟩
  · simp only [pushPopCpu, eC5, eC1, Option.map_some', set_bc_bc, set_bc_sp,
      rbc.1, rbc.2]
    exact congrArg (fun w => some (w, s.sp)) (repack_eq s.b s.c hb hc)
  · simp only [pushPopCpu, eD5, eD1, Option.map_some', set_de_de, set_de_sp,
      rde.1, rde.2]
    exact congrArg (fun w => some (w, s.sp)) (repack_eq s.d s.e hd he)
  · simp only [pushPopCpu, eE5, eE1, Option.map_some', set_hl_hl, set_hl_sp,
      rhl.1, rhl.2]
    exact congrArg (fun w => some (w, s.sp)) (repack_eq s.h s.l hh hl8)
  · simp only [pushPopCpu, eF5, eF1, Option.map_some', raf.1, raf.2]
    rw [byte_unpack_hi s.a s.f.to_byte ha htb.2.2.2,
      pack_and_mask s.a s.f.to_byte 0xF0 htb.2.2.2 (by norm_num), htb.2.1, htb.1]
  · simp only [pushPopCpu, eF5, eF1, Option.map_some', raf.1]
    rw [pack_and_mask s.a s.f.to_byte 0xF0 htb.2.2.2 (by norm_num), htb.2.1, htb.1]
    exact congrArg some htb.2.2.1

/-- Witness for C7: the PUSH/POP round trip holds at the power-on CPU state
(SP = 0xFFFE, whose two stack bytes 0xFFFD and 0xFFFC lie in HRAM). -/
theorem C7_witness :
    (pushPopCpu 0xC5 0xC1 Cpu.new zeroBus).map (fun c => (c.bc, c.sp))
        = some (Cpu.new.bc, Cpu.new.sp) ∧
    (pushPopCpu 0xD5 0xD1 Cpu.new zeroBus).map (fun c => (c.de, c.sp))
        = some (Cpu.new.de, Cpu.new.sp) ∧
    (pushPopCpu 0xE5 0xE1 Cpu.new zeroBus).map (fun c => (c.hl, c.sp))
        = some (Cpu.new.hl, Cpu.new.sp) ∧
    (pushPopCpu 0xF5 0xF1 Cpu.new zeroBus).map (fun c => (c.a, c.f, c.sp))
        = some (Cpu.new.a, Cpu.new.f, Cpu.new.sp) ∧
    (pushPopCpu 0xF5 0xF1 Cpu.new zeroBus).map (fun c => c.f.to_byte &&& 0x0F)
        = some 0 :=
  C7_push_pop Cpu.new zeroBus (by decide) (by decide) (by decide) (by decide)
    (by decide) (by decide) (by decide) (by decide) (by decide) (by decide)


/-! ### Trailing-zero / bit-clearing lemmas (C2) -/

set_option maxRecDepth 2048 in
/-- `trailingZeros8` of a nonzero byte is below 8. -/
theorem tz8_lt : ∀ p < 256, p ≠ 0 → trailingZeros8 p < 8 := by decide

set_option maxRecDepth 2048 in
/-- `trailingZeros8` names a set bit. -/
theorem tz8_testBit : ∀ p < 256, p ≠ 0 → p.testBit (trailingZeros8 p) = true := by decide

set_option maxRecDepth 2048 in
/-- `trailingZeros8` names the lowest set bit. -/
theorem tz8_least : ∀ p < 256, p ≠ 0 → ∀ j < trailingZeros8 p, p.testBit j = false := by
  decide

set_option maxRecDepth 2048 in
/-- Clearing a bit via `x &= !(1 << bit)` really clears it. -/
theorem clear_bit_testBit :
    ∀ fl < 256, ∀ bit < 8, (fl &&& (0xFF ^^^ (1 <<< bit))).testBit bit = false := by
  decide

/-! ### C2 -/

/-- C2, amended: when an interrupt is pending and IME is set, `Cpu::step`
clears HALT and IME, clears the lowest pending bit in iflag, pushes PC, jumps
to `0x40 + bit*8` and returns 20 cycles; and — provided the two pushed stack
bytes do not land on the iflag register itself (SP ∉ {0xFF10, 0xFF11}) — the
dispatched source is no longer pending afterwards. -/
theorem C2_interrupt_dispatch :
    ∀ (s : Cpu) (b : Bus),
      b.ie &&& b.iflag ≠ 0 → s.ime = true →
      b.ie < 256 → b.iflag < 256 → s.sp < 65536 → s.sp ≠ 0xFF10 → s.sp ≠ 0xFF11 →
      ∃ s2 b2,
        Cpu.step s b = StepResult.ok s2 b2 20 ∧
        s2.halted = false ∧ s2.ime = false ∧
        s2.pc = 0x40 + trailingZeros8 (b.ie &&& b.iflag) * 8 ∧
        s2.sp = (s.sp + 65534) % 65536 ∧
        b2.iflag = b.iflag &&& (0xFF ^^^ (1 <<< trailingZeros8 (b.ie &&& b.iflag))) ∧
        (b.ie &&& b.iflag).testBit (trailingZeros8 (b.ie &&& b.iflag)) = true ∧
        (∀ j, j < trailingZeros8 (b.ie &&& b.iflag) →
          (b.ie &&& b.iflag).testBit j = false) ∧
        (b2.ie &&& b2.iflag).testBit (trailingZeros8 (b.ie &&& b.iflag)) = false ∧
        b2 = (Cpu.push16 { s with halted := false, ime := false }
            { b with iflag := b.iflag &&& (0xFF ^^^ (1 <<< trailingZeros8 (b.ie &&& b.iflag))) }
            s.pc).2 := by
  intro s b hpend him hie hifl hsp h10 h11
  have hplt : b.ie &&& b.iflag < 256 := lt_of_le_of_lt Nat.and_le_left hie
  have hbit := tz8_lt (b.ie &&& b.iflag) hplt hpend
  set bit := trailingZeros8 (b.ie &&& b.iflag) with hbitdef
  set bC := { b with iflag := b.iflag &&& (0xFF ^^^ (1 <<< bit)) } with hbCdef
  set sH := { s with halted := false, ime := false } with hsHdef
  have hstep : Cpu.step s b
      = StepResult.ok { (sH.push16 bC s.pc).1 with pc := 0x40 + bit * 8 }
          (sH.push16 bC s.pc).2 20 := by
    unfold Cpu.step
    rw [if_pos ⟨hpend, him⟩]
  have hsp1 : (s.sp + 65535) % 65536 ≠ 0xFF0F := by omega
  have hsp2 : ((s.sp + 65535) % 65536 + 65535) % 65536 ≠ 0xFF0F := by omega
  have hifl2 : (sH.push16 bC s.pc).2.iflag = b.iflag &&& (0xFF ^^^ (1 <<< bit)) := by
    show ((bC.write8 ((s.sp + 65535) % 65536) ((s.pc >>> 8) % 256)).write8
        (((s.sp + 65535) % 65536 + 65535) % 65536) (s.pc &&& 0xFF)).iflag
      = b.iflag &&& (0xFF ^^^ (1 <<< bit))
    rw [write8_iflag, if_neg hsp2, write8_iflag, if_neg hsp1]
  have hnp : ((sH.push16 bC s.pc).2.ie &&& (sH.push16 bC s.pc).2.iflag).testBit bit
      = false := by
    rw [Nat.testBit_and, hifl2, clear_bit_testBit b.iflag hifl bit hbit, Bool.and_false]
  refine ⟨_, _, hstep, rfl, rfl, rfl, ?_, hifl2,
    tz8_testBit _ hplt hpend, fun j hj => tz8_least _ hplt hpend j hj, hnp, rfl⟩
  show ((s.sp + 65535) % 65536 + 65535) % 65536 = (s.sp + 65534) % 65536
  omega

/-- C2, witness: the amended dispatch behavior at a concrete pending VBlank
interrupt with SP = 0xFFFE. -/
theorem C2_witness :
    ∃ s2 b2,
      Cpu.step { Cpu.new with ime := true } ffBus = StepResult.ok s2 b2 20 ∧
      s2.halted = false ∧ s2.ime = false ∧
      s2.pc = 0x40 + trailingZeros8 (ffBus.ie &&& ffBus.iflag) * 8 ∧
      s2.sp = ({ Cpu.new with ime := true }.sp + 65534) % 65536 ∧
      b2.iflag = ffBus.iflag &&&
        (0xFF ^^^ (1 <<< trailingZeros8 (ffBus.ie &&& ffBus.iflag))) ∧
      (ffBus.ie &&& ffBus.iflag).testBit (trailingZeros8 (ffBus.ie &&& ffBus.iflag)) = true ∧
      (∀ j, j < trailingZeros8 (ffBus.ie &&& ffBus.iflag) →
        (ffBus.ie &&& ffBus.iflag).testBit j = false) ∧
      (b2.ie &&& b2.iflag).testBit (trailingZeros8 (ffBus.ie &&& ffBus.iflag)) = false ∧
      b2 = (Cpu.push16 { { Cpu.new with ime := true } with halted := false, ime := false }
          { ffBus with iflag := ffBus.iflag &&&
              (0xFF ^^^ (1 <<< trailingZeros8 (ffBus.ie &&& ffBus.iflag))) }
          { Cpu.new with ime := true }.pc).2 :=
  C2_interrupt_dispatch { Cpu.new with ime := true } ffBus (by decide) rfl
    (by decide) (by decide) (by decide) (by decide) (by decide)

/-! ### C9: minimum cycle count and frame-loop termination -/

theorem cb_op_cycles (s : Cpu) (op : Nat) (b : Bus) :
    (Cpu.cb_op s op b).2.2 = if (op &&& 0x07) == 6 then 16 else 8 := rfl

theorem cb_op_cycles_ge (s : Cpu) (op : Nat) (b : Bus) :
    4 ≤ (Cpu.cb_op s op b).2.2 := by
  rw [cb_op_cycles]
  split <;> omega

set_option maxHeartbeats 16000000 in
set_option maxRecDepth 16384 in
set_option linter.unreachableTactic false in
set_option linter.unnecessarySeqFocus false in
set_option linter.unusedTactic false in
theorem exec_cycles_ge (op : Nat) (s : Cpu) (b : Bus) (s2 : Cpu) (b2 : Bus) (n : Nat)
    (h : Cpu.exec op s b = StepResult.ok s2 b2 n) : 4 ≤ n := by
  unfold Cpu.exec at h
  by_cases c0 : op = 0x00
  case pos =>
    rw [if_pos c0] at h
    repeat' (first | split at h | simp only [] at h)
    all_goals (cases h <;> (first | omega | exact cb_op_cycles_ge _ _ _))
  rw [if_neg c0] at h
  by_cases c1 : op = 0x01
  case pos =>
    rw [if_pos c1] at h
    repeat' (first | split at h | simp only [] at h)
    all_goals (cases h <;> (first | omega | exact cb_op_cycles_ge _ _ _))
  rw [if_neg c1] at h
  by_cases c2 : op = 0x02
  case pos =>
    rw [if_pos c2] at h
    repeat' (first | split at h | simp only [] at h)
    all_goals (cases h <;> (first | omega | exact cb_op_cycles_ge _ _ _))
  rw [if_neg c2] at h
  by_cases c3 : op = 0x03
  case pos =>
    rw [if_pos c3] at h
    repeat' (first | split at h | simp only [] at h)
    all_goals (cases h <;> (first | omega | exact cb_op_cycles_ge _ _ _))
  rw [if_neg c3] at h
  by_cases c4 : op = 0x04
  case pos =>
    rw [if_pos c4] at h
    repeat' (first | split at h | simp only [] at h)
    all_goals (cases h <;> (first | omega | exact cb_op_cycles_ge _ _ _))
  rw [if_neg c4] at h
  by_cases c5 : op = 0x05
  case pos =>
    rw [if_pos c5] at h
    repeat' (first | split at h | simp only [] at h)
    all_goals (cases h <;> (first | omega | exact cb_op_cycles_ge _ _ _))
  rw [if_neg c5] at h
  by_cases c6 : op = 0x06
  case pos =>
    rw [if_pos c6] at h
    repeat' (first | split at h | simp only [] at h)
    all_goals (cases h <;> (first | omega | exact cb_op_cycles_ge _ _ _))
  rw [if_neg c6] at h
  by_cases c7 : op = 0x07
  case pos =>
    rw [if_pos c7] at h
    repeat' (first | split at h | simp only [] at h)
    all_goals (cases h <;> (first | omega | exact cb_op_cycles_ge _ _ _))
  rw [if_neg c7] at h
  by_cases c8 : op = 0x08
  case pos =>
    rw [if_pos c8] at h
    repeat' (first | split at h | simp only [] at h)
    all_goals (cases h <;> (first | omega | exact cb_op_cycles_ge _ _ _))
  rw [if_neg c8] at h
  by_cases c9 : op = 0x09
  case pos =>
    rw [if_pos c9] at h
    repeat' (first | split at h | simp only [] at h)
    all_goals (cases h <;> (first | omega | exact cb_op_cycles_ge _ _ _))
  rw [if_neg c9] at h
  by_cases c10 : op = 0x0A
  case pos =>
    rw [if_pos c10] at h
    repeat' (first | split at h | simp only [] at h)
    all_goals (cases h <;> (first | omega | exact cb_op_cycles_ge _ _ _))
  rw [if_neg c10] at h
  by_cases c11 : op = 0x0B
  case pos =>
    rw [if_pos c11] at h
    repeat' (first | split at h | simp only [] at h)
    all_goals (cases h <;> (first | omega | exact cb_op_cycles_ge _ _ _))
  rw [if_neg c11] at h
  by_cases c12 : op = 0x0C
  case pos =>
    rw [if_pos c12] at h
    repeat' (first | split at h | simp only [] at h)
    all_goals (cases h <;> (first | omega | exact cb_op_cycles_ge _ _ _))
  rw [if_neg c12] at h
  by_cases c13 : op = 0x0D
  case pos =>
    rw [if_pos c13] at h
    repeat' (first | split at h | simp only [] at h)
    all_goals (cases h <;> (first | omega | exact cb_op_cycles_ge _ _ _))
  rw [if_neg c13] at h
  by_cases c14 : op = 0x0E
  case pos =>
    rw [if_pos c14] at h
    repeat' (first | split at h | simp only [] at h)
    all_goals (cases h <;> (first | omega | exact cb_op_cycles_ge _ _ _))
  rw [if_neg c14] at h
  by_cases c15 : op = 0x0F
  case pos =>
    rw [if_pos c15] at h
    repeat' (first | split at h | simp only [] at h)
    all_goals (cases h <;> (first | omega | exact cb_op_cycles_ge _ _ _))
  rw [if_neg c15] at h
  by_cases c16 : op = 0x10
  case pos =>
    rw [if_pos c16] at h
    repeat' (first | split at h | simp only [] at h)
    all_goals (cases h <;> (first | omega | exact cb_op_cycles_ge _ _ _))
  rw [if_neg c16] at h
  by_cases c17 : op = 0x11
  case pos =>
    rw [if_pos c17] at h
    repeat' (first | split at h | simp only [] at h)
    all_goals (cases h <;> (first | omega | exact cb_op_cycles_ge _ _ _))
  rw [if_neg c17] at h
  by_cases c18 : op = 0x12
  case pos =>
    rw [if_pos c18] at h
    repeat' (first | split at h | simp only [] at h)
    all_goals (cases h <;> (first | omega | exact cb_op_cycles_ge _ _ _))
  rw [if_neg c18] at h
  by_cases c19 : op = 0x13
  case pos =>
    rw [if_pos c19] at h
    repeat' (first | split at h | simp only [] at h)
    all_goals (cases h <;> (first | omega | exact cb_op_cycles_ge _ _ _))
  rw [if_neg c19] at h
  by_cases c20 : op = 0x14
  case pos =>
    rw [if_pos c20] at h
    repeat' (first | split at h | simp only [] at h)
    all_goals (cases h <;> (first | omega | exact cb_op_cycles_ge _ _ _))
  rw [if_neg c20] at h
  by_cases c21 : op = 0x15
  case pos =>
    rw [if_pos c21] at h
    repeat' (first | split at h | simp only [] at h)
    all_goals (cases h <;> (first | omega | exact cb_op_cycles_ge _ _ _))
  rw [if_neg c21] at h
  by_cases c22 : op = 0x16
  case pos =>
    rw [if_pos c22] at h
    repeat' (first | split at h | simp only [] at h)
    all_goals (cases h <;> (first | omega | exact cb_op_cycles_ge _ _ _))
  rw [if_neg c22] at h
  by_cases c23 : op = 0x17
  case pos =>
    rw [if_pos c23] at h
    repeat' (first | split at h | simp only [] at h)
    all_goals (cases h <;> (first | omega | exact cb_op_cycles_ge _ _ _))
  rw [if_neg c23] at h
  by_cases c24 : op = 0x18
  case pos =>
    rw [if_pos c24] at h
    repeat' (first | split at h | simp only [] at h)
    all_goals (cases h <;> (first | omega | exact cb_op_cycles_ge _ _ _))
  rw [if_neg c24] at h
  by_cases c25 : op = 0x19
  case pos =>
    rw [if_pos c25] at h
    repeat' (first | split at h | simp only [] at h)
    all_goals (cases h <;> (first | omega | exact cb_op_cycles_ge _ _ _))
  rw [if_neg c25] at h
  by_cases c26 : op = 0x1A
  case pos =>
    rw [if_pos c26] at h
    repeat' (first | split at h | simp only [] at h)
    all_goals (cases h <;> (first | omega | exact cb_op_cycles_ge _ _ _))
  rw [if_neg c26] at h
  by_cases c27 : op = 0x1B
  case pos =>
    rw [if_pos c27] at h
    repeat' (first | split at h | simp only [] at h)
    all_goals (cases h <;> (first | omega | exact cb_op_cycles_ge _ _ _))
  rw [if_neg c27] at h
  by_cases c28 : op = 0x1C
  case pos =>
    rw [if_pos c28] at h
    repeat' (first | split at h | simp only [] at h)
    all_goals (cases h <;> (first | omega | exact cb_op_cycles_ge _ _ _))
  rw [if_neg c28] at h
  by_cases c29 : op = 0x1D
  case pos =>
    rw [if_pos c29] at h
    repeat' (first | split at h | simp only [] at h)
    all_goals (cases h <;> (first | omega | exact cb_op_cycles_ge _ _ _))
  rw [if_neg c29] at h
  by_cases c30 : op = 0x1E
  case pos =>
    rw [if_pos c30] at h
    repeat' (first | split at h | simp only [] at h)
    all_goals (cases h <;> (first | omega | exact cb_op_cycles_ge _ _ _))
  rw [if_neg c30] at h
  by_cases c31 : op = 0x1F
  case pos =>
    rw [if_pos c31] at h
    repeat' (first | split at h | simp only [] at h)
    all_goals (cases h <;> (first | omega | exact cb_op_cycles_ge _ _ _))
  rw [if_neg c31] at h
  by_cases c32 : op = 0x20
  case pos =>
    rw [if_pos c32] at h
    repeat' (first | split at h | simp only [] at h)
    all_goals (cases h <;> (first | omega | exact cb_op_cycles_ge _ _ _))
  rw [if_neg c32] at h
  by_cases c33 : op = 0x21
  case pos =>
    rw [if_pos c33] at h
    repeat' (first | split at h | simp only [] at h)
    all_goals (cases h <;> (first | omega | exact cb_op_cycles_ge _ _ _))
  rw [if_neg c33] at h
  by_cases c34 : op = 0x22
  case pos =>
    rw [if_pos c34] at h
    repeat' (first | split at h | simp only [] at h)
    all_goals (cases h <;> (first | omega | exact cb_op_cycles_ge _ _ _))
  rw [if_neg c34] at h
  by_cases c35 : op = 0x23
  case pos =>
    rw [if_pos c35] at h
    repeat' (first | split at h | simp only [] at h)
    all_goals (cases h <;> (first | omega | exact cb_op_cycles_ge _ _ _))
  rw [if_neg c35] at h
  by_cases c36 : op = 0x28
  case pos =>
    rw [if_pos c36] at h
    repeat' (first | split at h | simp only [] at h)
    all_goals (cases h <;> (first | omega | exact cb_op_cycles_ge _ _ _))
  rw [if_neg c36] at h
  by_cases c37 : op = 0x2A
  case pos =>
    rw [if_pos c37] at h
    repeat' (first | split at h | simp only [] at h)
    all_goals (cases h <;> (first | omega | exact cb_op_cycles_ge _ _ _))
  rw [if_neg c37] at h
  by_cases c38 : op = 0x2B
  case pos =>
    rw [if_pos c38] at h
    repeat' (first | split at h | simp only [] at h)
    all_goals (cases h <;> (first | omega | exact cb_op_cycles_ge _ _ _))
  rw [if_neg c38] at h
  by_cases c39 : op = 0x24
  case pos =>
    rw [if_pos c39] at h
    repeat' (first | split at h | simp only [] at h)
    all_goals (cases h <;> (first | omega | exact cb_op_cycles_ge _ _ _))
  rw [if_neg c39] at h
  by_cases c40 : op = 0x25
  case pos =>
    rw [if_pos c40] at h
    repeat' (first | split at h | simp only [] at h)
    all_goals (cases h <;> (first | omega | exact cb_op_cycles_ge _ _ _))
  rw [if_neg c40] at h
  by_cases c41 : op = 0x26
  case pos =>
    rw [if_pos c41] at h
    repeat' (first | split at h | simp only [] at h)
    all_goals (cases h <;> (first | omega | exact cb_op_cycles_ge _ _ _))
  rw [if_neg c41] at h
  by_cases c42 : op = 0x27
  case pos =>
    rw [if_pos c42] at h
    repeat' (first | split at h | simp only [] at h)
    all_goals (cases h <;> (first | omega | exact cb_op_cycles_ge _ _ _))
  rw [if_neg c42] at h
  by_cases c43 : op = 0x29
  case pos =>
    rw [if_pos c43] at h
    repeat' (first | split at h | simp only [] at h)
    all_goals (cases h <;> (first | omega | exact cb_op_cycles_ge _ _ _))
  rw [if_neg c43] at h
  by_cases c44 : op = 0x2C
  case pos =>
    rw [if_pos c44] at h
    repeat' (first | split at h | simp only [] at h)
    all_goals (cases h <;> (first | omega | exact cb_op_cycles_ge _ _ _))
  rw [if_neg c44] at h
  by_cases c45 : op = 0x2D
  case pos =>
    rw [if_pos c45] at h
    repeat' (first | split at h | simp only [] at h)
    all_goals (cases h <;> (first | omega | exact cb_op_cycles_ge _ _ _))
  rw [if_neg c45] at h
  by_cases c46 : op = 0x2E
  case pos =>
    rw [if_pos c46] at h
    repeat' (first | split at h | simp only [] at h)
    all_goals (cases h <;> (first | omega | exact cb_op_cycles_ge _ _ _))
  rw [if_neg c46] at h
  by_cases c47 : op = 0x2F
  case pos =>
    rw [if_pos c47] at h
    repeat' (first | split at h | simp only [] at h)
    all_goals (cases h <;> (first | omega | exact cb_op_cycles_ge _ _ _))
  rw [if_neg c47] at h
  by_cases c48 : op = 0x31
  case pos =>
    rw [if_pos c48] at h
    repeat' (first | split at h | simp only [] at h)
    all_goals (cases h <;> (first | omega | exact cb_op_cycles_ge _ _ _))
  rw [if_neg c48] at h
  by_cases c49 : op = 0x30
  case pos =>
    rw [if_pos c49] at h
    repeat' (first | split at h | simp only [] at h)
    all_goals (cases h <;> (first | omega | exact cb_op_cycles_ge _ _ _))
  rw [if_neg c49] at h
  by_cases c50 : op = 0x32
  case pos =>
    rw [if_pos c50] at h
    repeat' (first | split at h | simp only [] at h)
    all_goals (cases h <;> (first | omega | exact cb_op_cycles_ge _ _ _))
  rw [if_neg c50] at h
  by_cases c51 : op = 0x33
  case pos =>
    rw [if_pos c51] at h
    repeat' (first | split at h | simp only [] at h)
    all_goals (cases h <;> (first | omega | exact cb_op_cycles_ge _ _ _))
  rw [if_neg c51] at h
  by_cases c52 : op = 0x34
  case pos =>
    rw [if_pos c52] at h
    repeat' (first | split at h | simp only [] at h)
    all_goals (cases h <;> (first | omega | exact cb_op_cycles_ge _ _ _))
  rw [if_neg c52] at h
  by_cases c53 : op = 0x35
  case pos =>
    rw [if_pos c53] at h
    repeat' (first | split at h | simp only [] at h)
    all_goals (cases h <;> (first | omega | exact cb_op_cycles_ge _ _ _))
  rw [if_neg c53] at h
  by_cases c54 : op = 0x36
  case pos =>
    rw [if_pos c54] at h
    repeat' (first | split at h | simp only [] at h)
    all_goals (cases h <;> (first | omega | exact cb_op_cycles_ge _ _ _))
  rw [if_neg c54] at h
  by_cases c55 : op = 0x38
  case pos =>
    rw [if_pos c55] at h
    repeat' (first | split at h | simp only [] at h)
    all_goals (cases h <;> (first | omega | exact cb_op_cycles_ge _ _ _))
  rw [if_neg c55] at h
  by_cases c56 : op = 0x39
  case pos =>
    rw [if_pos c56] at h
    repeat' (first | split at h | simp only [] at h)
    all_goals (cases h <;> (first | omega | exact cb_op_cycles_ge _ _ _))
  rw [if_neg c56] at h
  by_cases c57 : op = 0x3A
  case pos =>
    rw [if_pos c57] at h
    repeat' (first | split at h | simp only [] at h)
    all_goals (cases h <;> (first | omega | exact cb_op_cycles_ge _ _ _))
  rw [if_neg c57] at h
  by_cases c58 : op = 0x3B
  case pos =>
    rw [if_pos c58] at h
    repeat' (first | split at h | simp only [] at h)
    all_goals (cases h <;> (first | omega | exact cb_op_cycles_ge _ _ _))
  rw [if_neg c58] at h
  by_cases c59 : op = 0x3C
  case pos =>
    rw [if_pos c59] at h
    repeat' (first | split at h | simp only [] at h)
    all_goals (cases h <;> (first | omega | exact cb_op_cycles_ge _ _ _))
  rw [if_neg c59] at h
  by_cases c60 : op = 0x3D
  case pos =>
    rw [if_pos c60] at h
    repeat' (first | split at h | simp only [] at h)
    all_goals (cases h <;> (first | omega | exact cb_op_cycles_ge _ _ _))
  rw [if_neg c60] at h
  by_cases c61 : op = 0x3E
  case pos =>
    rw [if_pos c61] at h
    repeat' (first | split at h | simp only [] at h)
    all_goals (cases h <;> (first | omega | exact cb_op_cycles_ge _ _ _))
  rw [if_neg c61] at h
  by_cases c62 : op = 0x3F
  case pos =>
    rw [if_pos c62] at h
    repeat' (first | split at h | simp only [] at h)
    all_goals (cases h <;> (first | omega | exact cb_op_cycles_ge _ _ _))
  rw [if_neg c62] at h
  by_cases c63 : op = 0x37
  case pos =>
    rw [if_pos c63] at h
    repeat' (first | split at h | simp only [] at h)
    all_goals (cases h <;> (first | omega | exact cb_op_cycles_ge _ _ _))
  rw [if_neg c63] at h
  by_cases c64 : 0x40 ≤ op ∧ op ≤ 0x7F
  case pos =>
    rw [if_pos c64] at h
    repeat' (first | split at h | simp only [] at h)
    all_goals (cases h <;> (first | omega | exact cb_op_cycles_ge _ _ _))
  rw [if_neg c64] at h
  by_cases c65 : 0x80 ≤ op ∧ op ≤ 0x87
  case pos =>
    rw [if_pos c65] at h
    repeat' (first | split at h | simp only [] at h)
    all_goals (cases h <;> (first | omega | exact cb_op_cycles_ge _ _ _))
  rw [if_neg c65] at h
  by_cases c66 : 0x88 ≤ op ∧ op ≤ 0x8F
  case pos =>
    rw [if_pos c66] at h
    repeat' (first | split at h | simp only [] at h)
    all_goals (cases h <;> (first | omega | exact cb_op_cycles_ge _ _ _))
  rw [if_neg c66] at h
  by_cases c67 : 0x90 ≤ op ∧ op ≤ 0x97
  case pos =>
    rw [if_pos c67] at h
    repeat' (first | split at h | simp only [] at h)
    all_goals (cases h <;> (first | omega | exact cb_op_cycles_ge _ _ _))
  rw [if_neg c67] at h
  by_cases c68 : 0x98 ≤ op ∧ op ≤ 0x9F
  case pos =>
    rw [if_pos c68] at h
    repeat' (first | split at h | simp only [] at h)
    all_goals (cases h <;> (first | omega | exact cb_op_cycles_ge _ _ _))
  rw [if_neg c68] at h
  by_cases c69 : 0xA0 ≤ op ∧ op ≤ 0xA7
  case pos =>
    rw [if_pos c69] at h
    repeat' (first | split at h | simp only [] at h)
    all_goals (cases h <;> (first | omega | exact cb_op_cycles_ge _ _ _))
  rw [if_neg c69] at h
  by_cases c70 : 0xA8 ≤ op ∧ op ≤ 0xAF
  case pos =>
    rw [if_pos c70] at h
    repeat' (first | split at h | simp only [] at h)
    all_goals (cases h <;> (first | omega | exact cb_op_cycles_ge _ _ _))
  rw [if_neg c70] at h
  by_cases c71 : 0xB0 ≤ op ∧ op ≤ 0xB7
  case pos =>
    rw [if_pos c71] at h
    repeat' (first | split at h | simp only [] at h)
    all_goals (cases h <;> (first | omega | exact cb_op_cycles_ge _ _ _))
  rw [if_neg c71] at h
  by_cases c72 : 0xB8 ≤ op ∧ op ≤ 0xBF
  case pos =>
    rw [if_pos c72] at h
    repeat' (first | split at h | simp only [] at h)
    all_goals (cases h <;> (first | omega | exact cb_op_cycles_ge _ _ _))
  rw [if_neg c72] at h
  by_cases c73 : op = 0xC1
  case pos =>
    rw [if_pos c73] at h
    repeat' (first | split at h | simp only [] at h)
    all_goals (cases h <;> (first | omega | exact cb_op_cycles_ge _ _ _))
  rw [if_neg c73] at h
  by_cases c74 : op = 0xC0
  case pos =>
    rw [if_pos c74] at h
    repeat' (first | split at h | simp only [] at h)
    all_goals (cases h <;> (first | omega | exact cb_op_cycles_ge _ _ _))
  rw [if_neg c74] at h
  by_cases c75 : op = 0xC3
  case pos =>
    rw [if_pos c75] at h
    repeat' (first | split at h | simp only [] at h)
    all_goals (cases h <;> (first | omega | exact cb_op_cycles_ge _ _ _))
  rw [if_neg c75] at h
  by_cases c76 : op = 0xC2
  case pos =>
    rw [if_pos c76] at h
    repeat' (first | split at h | simp only [] at h)
    all_goals (cases h <;> (first | omega | exact cb_op_cycles_ge _ _ _))
  rw [if_neg c76] at h
  by_cases c77 : op = 0xC5
  case pos =>
    rw [if_pos c77] at h
    repeat' (first | split at h | simp only [] at h)
    all_goals (cases h <;> (first | omega | exact cb_op_cycles_ge _ _ _))
  rw [if_neg c77] at h
  by_cases c78 : op = 0xC6
  case pos =>
    rw [if_pos c78] at h
    repeat' (first | split at h | simp only [] at h)
    all_goals (cases h <;> (first | omega | exact cb_op_cycles_ge _ _ _))
  rw [if_neg c78] at h
  by_cases c79 : op = 0xC7
  case pos =>
    rw [if_pos c79] at h
    repeat' (first | split at h | simp only [] at h)
    all_goals (cases h <;> (first | omega | exact cb_op_cycles_ge _ _ _))
  rw [if_neg c79] at h
  by_cases c80 : op = 0xC8
  case pos =>
    rw [if_pos c80] at h
    repeat' (first | split at h | simp only [] at h)
    all_goals (cases h <;> (first | omega | exact cb_op_cycles_ge _ _ _))
  rw [if_neg c80] at h
  by_cases c81 : op = 0xC9
  case pos =>
    rw [if_pos c81] at h
    repeat' (first | split at h | simp only [] at h)
    all_goals (cases h <;> (first | omega | exact cb_op_cycles_ge _ _ _))
  rw [if_neg c81] at h
  by_cases c82 : op = 0xCE
  case pos =>
    rw [if_pos c82] at h
    repeat' (first | split at h | simp only [] at h)
    all_goals (cases h <;> (first | omega | exact cb_op_cycles_ge _ _ _))
  rw [if_neg c82] at h
  by_cases c83 : op = 0xCA
  case pos =>
    rw [if_pos c83] at h
    repeat' (first | split at h | simp only [] at h)
    all_goals (cases h <;> (first | omega | exact cb_op_cycles_ge _ _ _))
  rw [if_neg c83] at h
  by_cases c84 : op = 0xCF
  case pos =>
    rw [if_pos c84] at h
    repeat' (first | split at h | simp only [] at h)
    all_goals (cases h <;> (first | omega | exact cb_op_cycles_ge _ _ _))
  rw [if_neg c84] at h
  by_cases c85 : op = 0xCB
  case pos =>
    rw [if_pos c85] at h
    repeat' (first | split at h | simp only [] at h)
    all_goals (cases h <;> (first | omega | exact cb_op_cycles_ge _ _ _))
  rw [if_neg c85] at h
  by_cases c86 : op = 0xD2
  case pos =>
    rw [if_pos c86] at h
    repeat' (first | split at h | simp only [] at h)
    all_goals (cases h <;> (first | omega | exact cb_op_cycles_ge _ _ _))
  rw [if_neg c86] at h
  by_cases c87 : op = 0xDA
  case pos =>
    rw [if_pos c87] at h
    repeat' (first | split at h | simp only [] at h)
    all_goals (cases h <;> (first | omega | exact cb_op_cycles_ge _ _ _))
  rw [if_neg c87] at h
  by_cases c88 : op = 0xCC
  case pos =>
    rw [if_pos c88] at h
    repeat' (first | split at h | simp only [] at h)
    all_goals (cases h <;> (first | omega | exact cb_op_cycles_ge _ _ _))
  rw [if_neg c88] at h
  by_cases c89 : op = 0xC4
  case pos =>
    rw [if_pos c89] at h
    repeat' (first | split at h | simp only [] at h)
    all_goals (cases h <;> (first | omega | exact cb_op_cycles_ge _ _ _))
  rw [if_neg c89] at h
  by_cases c90 : op = 0xCD
  case pos =>
    rw [if_pos c90] at h
    repeat' (first | split at h | simp only [] at h)
    all_goals (cases h <;> (first | omega | exact cb_op_cycles_ge _ _ _))
  rw [if_neg c90] at h
  by_cases c91 : op = 0xD1
  case pos =>
    rw [if_pos c91] at h
    repeat' (first | split at h | simp only [] at h)
    all_goals (cases h <;> (first | omega | exact cb_op_cycles_ge _ _ _))
  rw [if_neg c91] at h
  by_cases c92 : op = 0xD0
  case pos =>
    rw [if_pos c92] at h
    repeat' (first | split at h | simp only [] at h)
    all_goals (cases h <;> (first | omega | exact cb_op_cycles_ge _ _ _))
  rw [if_neg c92] at h
  by_cases c93 : op = 0xD5
  case pos =>
    rw [if_pos c93] at h
    repeat' (first | split at h | simp only [] at h)
    all_goals (cases h <;> (first | omega | exact cb_op_cycles_ge _ _ _))
  rw [if_neg c93] at h
  by_cases c94 : op = 0xD6
  case pos =>
    rw [if_pos c94] at h
    repeat' (first | split at h | simp only [] at h)
    all_goals (cases h <;> (first | omega | exact cb_op_cycles_ge _ _ _))
  rw [if_neg c94] at h
  by_cases c95 : op = 0xD7
  case pos =>
    rw [if_pos c95] at h
    repeat' (first | split at h | simp only [] at h)
    all_goals (cases h <;> (first | omega | exact cb_op_cycles_ge _ _ _))
  rw [if_neg c95] at h
  by_cases c96 : op = 0xD9
  case pos =>
    rw [if_pos c96] at h
    repeat' (first | split at h | simp only [] at h)
    all_goals (cases h <;> (first | omega | exact cb_op_cycles_ge _ _ _))
  rw [if_neg c96] at h
  by_cases c97 : op = 0xD8
  case pos =>
    rw [if_pos c97] at h
    repeat' (first | split at h | simp only [] at h)
    all_goals (cases h <;> (first | omega | exact cb_op_cycles_ge _ _ _))
  rw [if_neg c97] at h
  by_cases c98 : op = 0xDE
  case pos =>
    rw [if_pos c98] at h
    repeat' (first | split at h | simp only [] at h)
    all_goals (cases h <;> (first | omega | exact cb_op_cycles_ge _ _ _))
  rw [if_neg c98] at h
  by_cases c99 : op = 0xDF
  case pos =>
    rw [if_pos c99] at h
    repeat' (first | split at h | simp only [] at h)
    all_goals (cases h <;> (first | omega | exact cb_op_cycles_ge _ _ _))
  rw [if_neg c99] at h
  by_cases c100 : op = 0xD4
  case pos =>
    rw [if_pos c100] at h
    repeat' (first | split at h | simp only [] at h)
    all_goals (cases h <;> (first | omega | exact cb_op_cycles_ge _ _ _))
  rw [if_neg c100] at h
  by_cases c101 : op = 0xDC
  case pos =>
    rw [if_pos c101] at h
    repeat' (first | split at h | simp only [] at h)
    all_goals (cases h <;> (first | omega | exact cb_op_cycles_ge _ _ _))
  rw [if_neg c101] at h
  by_cases c102 : op = 0xE0
  case pos =>
    rw [if_pos c102] at h
    repeat' (first | split at h | simp only [] at h)
    all_goals (cases h <;> (first | omega | exact cb_op_cycles_ge _ _ _))
  rw [if_neg c102] at h
  by_cases c103 : op = 0xE1
  case pos =>
    rw [if_pos c103] at h
    repeat' (first | split at h | simp only [] at h)
    all_goals (cases h <;> (first | omega | exact cb_op_cycles_ge _ _ _))
  rw [if_neg c103] at h
  by_cases c104 : op = 0xE2
  case pos =>
    rw [if_pos c104] at h
    repeat' (first | split at h | simp only [] at h)
    all_goals (cases h <;> (first | omega | exact cb_op_cycles_ge _ _ _))
  rw [if_neg c104] at h
  by_cases c105 : op = 0xE5
  case pos =>
    rw [if_pos c105] at h
    repeat' (first | split at h | simp only [] at h)
    all_goals (cases h <;> (first | omega | exact cb_op_cycles_ge _ _ _))
  rw [if_neg c105] at h
  by_cases c106 : op = 0xE6
  case pos =>
    rw [if_pos c106] at h
    repeat' (first | split at h | simp only [] at h)
    all_goals (cases h <;> (first | omega | exact cb_op_cycles_ge _ _ _))
  rw [if_neg c106] at h
  by_cases c107 : op = 0xEE
  case pos =>
    rw [if_pos c107] at h
    repeat' (first | split at h | simp only [] at h)
    all_goals (cases h <;> (first | omega | exact cb_op_cycles_ge _ _ _))
  rw [if_neg c107] at h
  by_cases c108 : op = 0xE8
  case pos =>
    rw [if_pos c108] at h
    repeat' (first | split at h | simp only [] at h)
    all_goals (cases h <;> (first | omega | exact cb_op_cycles_ge _ _ _))
  rw [if_neg c108] at h
  by_cases c109 : op = 0xEA
  case pos =>
    rw [if_pos c109] at h
    repeat' (first | split at h | simp only [] at h)
    all_goals (cases h <;> (first | omega | exact cb_op_cycles_ge _ _ _))
  rw [if_neg c109] at h
  by_cases c110 : op = 0xEF
  case pos =>
    rw [if_pos c110] at h
    repeat' (first | split at h | simp only [] at h)
    all_goals (cases h <;> (first | omega | exact cb_op_cycles_ge _ _ _))
  rw [if_neg c110] at h
  by_cases c111 : op = 0xE9
  case pos =>
    rw [if_pos c111] at h
    repeat' (first | split at h | simp only [] at h)
    all_goals (cases h <;> (first | omega | exact cb_op_cycles_ge _ _ _))
  rw [if_neg c111] at h
  by_cases c112 : op = 0xE7
  case pos =>
    rw [if_pos c112] at h
    repeat' (first | split at h | simp only [] at h)
    all_goals (cases h <;> (first | omega | exact cb_op_cycles_ge _ _ _))
  rw [if_neg c112] at h
  by_cases c113 : op = 0xF0
  case pos =>
    rw [if_pos c113] at h
    repeat' (first | split at h | simp only [] at h)
    all_goals (cases h <;> (first | omega | exact cb_op_cycles_ge _ _ _))
  rw [if_neg c113] at h
  by_cases c114 : op = 0xF1
  case pos =>
    rw [if_pos c114] at h
    repeat' (first | split at h | simp only [] at h)
    all_goals (cases h <;> (first | omega | exact cb_op_cycles_ge _ _ _))
  rw [if_neg c114] at h
  by_cases c115 : op = 0xF2
  case pos =>
    rw [if_pos c115] at h
    repeat' (first | split at h | simp only [] at h)
    all_goals (cases h <;> (first | omega | exact cb_op_cycles_ge _ _ _))
  rw [if_neg c115] at h
  by_cases c116 : op = 0xF3
  case pos =>
    rw [if_pos c116] at h
    repeat' (first | split at h | simp only [] at h)
    all_goals (cases h <;> (first | omega | exact cb_op_cycles_ge _ _ _))
  rw [if_neg c116] at h
  by_cases c117 : op = 0xF7
  case pos =>
    rw [if_pos c117] at h
    repeat' (first | split at h | simp only [] at h)
    all_goals (cases h <;> (first | omega | exact cb_op_cycles_ge _ _ _))
  rw [if_neg c117] at h
  by_cases c118 : op = 0xF8
  case pos =>
    rw [if_pos c118] at h
    repeat' (first | split at h | simp only [] at h)
    all_goals (cases h <;> (first | omega | exact cb_op_cycles_ge _ _ _))
  rw [if_neg c118] at h
  by_cases c119 : op = 0xF9
  case pos =>
    rw [if_pos c119] at h
    repeat' (first | split at h | simp only [] at h)
    all_goals (cases h <;> (first | omega | exact cb_op_cycles_ge _ _ _))
  rw [if_neg c119] at h
  by_cases c120 : op = 0xF5
  case pos =>
    rw [if_pos c120] at h
    repeat' (first | split at h | simp only [] at h)
    all_goals (cases h <;> (first | omega | exact cb_op_cycles_ge _ _ _))
  rw [if_neg c120] at h
  by_cases c121 : op = 0xF6
  case pos =>
    rw [if_pos c121] at h
    repeat' (first | split at h | simp only [] at h)
    all_goals (cases h <;> (first | omega | exact cb_op_cycles_ge _ _ _))
  rw [if_neg c121] at h
  by_cases c122 : op = 0xFA
  case pos =>
    rw [if_pos c122] at h
    repeat' (first | split at h | simp only [] at h)
    all_goals (cases h <;> (first | omega | exact cb_op_cycles_ge _ _ _))
  rw [if_neg c122] at h
  by_cases c123 : op = 0xFB
  case pos =>
    rw [if_pos c123] at h
    repeat' (first | split at h | simp only [] at h)
    all_goals (cases h <;> (first | omega | exact cb_op_cycles_ge _ _ _))
  rw [if_neg c123] at h
  by_cases c124 : op = 0xFF
  case pos =>
    rw [if_pos c124] at h
    repeat' (first | split at h | simp only [] at h)
    all_goals (cases h <;> (first | omega | exact cb_op_cycles_ge _ _ _))
  rw [if_neg c124] at h
  by_cases c125 : op = 0xFE
  case pos =>
    rw [if_pos c125] at h
    repeat' (first | split at h | simp only [] at h)
    all_goals (cases h <;> (first | omega | exact cb_op_cycles_ge _ _ _))
  rw [if_neg c125] at h
  cases h


theorem step_cycles_ge (s : Cpu) (b : Bus) (s2 : Cpu) (b2 : Bus) (n : Nat)
    (h : Cpu.step s b = StepResult.ok s2 b2 n) : 4 ≤ n := by
  unfold Cpu.step at h
  repeat' (first | split at h | simp only [] at h)
  all_goals (first | (cases h; omega) | exact exec_cycles_ge _ _ _ _ _ _ h)

theorem runFrameLoop_total :
    ∀ (fuel cycles : Nat) (s : Cpu) (b : Bus),
      70224 ≤ cycles + 4 * fuel → runFrameLoop fuel cycles s b ≠ none := by
  intro fuel
  induction fuel with
  | zero =>
    intro cycles s b hge
    unfold runFrameLoop
    rw [if_neg (by omega)]
    simp
  | succ f ih =>
    intro cycles s b hge
    unfold runFrameLoop
    by_cases hc : cycles < 70224
    · rw [if_pos hc]
      cases hs : s.step b with
      | panicked op pc => simp [hs]
      | ok s2 b2 n =>
        have hn := step_cycles_ge s b s2 b2 n hs
        simp only [hs]
        exact ih (cycles + n) s2 (b2.step n) (by omega)
    · rw [if_neg hc]
      simp


/-- C9: every successful `Cpu::step` returns at least 4 cycles, and
`Emulator::run_frame`'s accumulation loop (fuel 17556) always terminates. -/
theorem C9_step_min_cycles_frame_terminates :
    (∀ (s : Cpu) (b : Bus) (s2 : Cpu) (b2 : Bus) (n : Nat),
        Cpu.step s b = StepResult.ok s2 b2 n → 4 ≤ n) ∧
    ∀ (s : Cpu) (b : Bus), runFrame s b ≠ none :=
  ⟨step_cycles_ge, fun s b => runFrameLoop_total 17556 0 s b (by omega)⟩

/-- Witness for C9: the NOP step from the power-on state costs exactly 4
cycles (so the bound is met), and `run_frame` terminates from that state. -/
theorem C9_witness :
    (4 ≤ 4) ∧ runFrame Cpu.new zeroBus ≠ none :=
  ⟨C9_step_min_cycles_frame_terminates.1 Cpu.new zeroBus
      { Cpu.new with pc := 0x0101 } zeroBus 4 rfl,
   C9_step_min_cycles_frame_terminates.2 Cpu.new zeroBus⟩

end EmuGb
